import Mathlib

set_option maxRecDepth 40000
unseal Rat.add Rat.mul Rat.inv Rat.sub

/-!
# Verification of the bank-statement ingestion pipeline (wallet-backend)

Shallow embedding of the statement ingestion pipeline of the wallet-backend
repository: the statement parser service (`statement-parser.service.ts`), the
transaction service (`transaction.service.ts`), the account service
(`account.service.ts`), the statement controller handlers
(`cash-operation.controller.ts` / statement controller), and the Mongoose
schemas (`Transaction`, `BankStatement`, `BankAccount` models).

Modelling conventions:
* JavaScript numbers are modelled as exact rationals (`Rat`).  Every amount
  appearing in the verified properties (450, 1000, 300, 5000, ...) is exactly
  representable in IEEE binary64 and the operations used on them (negation,
  absolute value, addition) are exact there, so the rational model agrees with
  the JS runtime on all inputs exercised here.
* JavaScript `Date` values are modelled as days since the Unix epoch
  (`Int`), assuming a UTC server timezone; `new Date(y, m, d)` (with its
  0-99-year quirk and calendar rollover) and `toISOString` date part are
  implemented over the proleptic Gregorian calendar.
* MongoDB collections are lists in insertion order; `findOne` is `List.find?`.
* `crypto.createHash('sha256')` is implemented bit-for-bit (FIPS 180-4) over
  the UTF-8 bytes of the input string, digest rendered as lowercase hex.
* The JS regular-expression matching used by the parser is implemented by a
  backtracking engine with JS semantics (leftmost match, greedy/lazy
  quantifiers, ordered alternation, capture groups); the six patterns of the
  source are transcribed into its syntax.
-/

/-! ## JavaScript string primitives -/

/-- JS whitespace for `trim` / `\s` (the code only ever meets ASCII whitespace). -/
def jsIsWs (c : Char) : Bool :=
  c == ' ' || c == '\t' || c == '\n' || c == '\r' || c == '\x0b' || c == '\x0c'

/-- `String.prototype.trim`. -/
def jsTrim (s : String) : String :=
  String.mk (((s.data.dropWhile jsIsWs).reverse.dropWhile jsIsWs).reverse)

/-- ASCII lower-casing of one character (`String.prototype.toLowerCase`;
all strings reaching it in this code are ASCII). -/
def jsLowerChar (c : Char) : Char :=
  if 'A' ≤ c ∧ c ≤ 'Z' then Char.ofNat (c.toNat + 32) else c

/-- `String.prototype.toLowerCase`. -/
def jsToLower (s : String) : String :=
  String.mk (s.data.map jsLowerChar)

/-- Substring test on character lists (`String.prototype.includes`). -/
def listIncludes : List Char → List Char → Bool
  | _, [] => true
  | [], _ :: _ => false
  | c :: cs, pat => (pat.isPrefixOf (c :: cs)) || listIncludes cs pat

/-- `String.prototype.includes`. -/
def jsIncludes (s pat : String) : Bool :=
  listIncludes s.data pat.data

/-! ## JavaScript numeric parsing and printing -/

/-- Numeric value of a digit character. -/
def digitVal (c : Char) : Nat := c.toNat - '0'.toNat

/-- Value of a list of decimal digit characters. -/
def digitsToNat (ds : List Char) : Nat :=
  ds.foldl (fun acc c => acc * 10 + digitVal c) 0

/-- `parseInt(s)` (radix 10): skip whitespace, optional sign, longest digit
prefix; `none` models `NaN`. -/
def jsParseInt (s : String) : Option Int :=
  let cs := s.data.dropWhile jsIsWs
  let (neg, cs) :=
    match cs with
    | '-' :: rest => (true, rest)
    | '+' :: rest => (false, rest)
    | rest => (false, rest)
  let ds := cs.takeWhile Char.isDigit
  if ds.isEmpty then none
  else some (if neg then -(digitsToNat ds : Int) else (digitsToNat ds : Int))

/-- `parseFloat(s)`: skip whitespace, optional sign, decimal mantissa, optional
exponent; value of the longest valid prefix; `none` models `NaN`. -/
def jsParseFloat (s : String) : Option Rat :=
  let cs := s.data.dropWhile jsIsWs
  let (sign, cs) :=
    match cs with
    | '-' :: rest => ((-1 : Rat), rest)
    | '+' :: rest => ((1 : Rat), rest)
    | rest => ((1 : Rat), rest)
  let intDs := cs.takeWhile Char.isDigit
  let cs := cs.drop intDs.length
  let (fracDs, cs) :=
    match cs with
    | '.' :: rest => (rest.takeWhile Char.isDigit, rest.drop (rest.takeWhile Char.isDigit).length)
    | rest => ([], rest)
  if intDs.isEmpty ∧ fracDs.isEmpty then none
  else
    let mant : Rat :=
      (digitsToNat intDs : Rat) + (digitsToNat fracDs : Rat) / ((10 : Rat) ^ fracDs.length)
    let expVal : Int :=
      match cs with
      | 'e' :: rest | 'E' :: rest =>
        let (eneg, rest) :=
          match rest with
          | '-' :: r => (true, r)
          | '+' :: r => (false, r)
          | r => (false, r)
        let eds := rest.takeWhile Char.isDigit
        if eds.isEmpty then 0
        else if eneg then -(digitsToNat eds : Int) else (digitsToNat eds : Int)
      | _ => 0
    some (sign * mant * (10 : Rat) ^ expVal)

/-- `amountStr.replace(/[^0-9.-]/g, '')`: keep digits, dots and minus signs. -/
def cleanNumericString (s : String) : String :=
  String.mk (s.data.filter (fun c => c.isDigit || c == '.' || c == '-'))

/-- Decimal rendering of a natural number. -/
def natToDec (n : Nat) : String :=
  String.mk (Nat.toDigits 10 n)

/-- Decimal rendering of an integer. -/
def intToDec (i : Int) : String :=
  if i < 0 then "-" ++ natToDec i.natAbs else natToDec i.natAbs

/-- Least `k ≤ 30` with `d ∣ 10^k` (exists for every denominator of a value
the pipeline computes; the fallback branch of `jsNumToString` is unreachable
on those). -/
def pow10Exp (d : Nat) : Option Nat :=
  (List.range 31).find? (fun k => 10 ^ k % d == 0)

/-- JS number-to-string conversion (template literal `${amount}`) for the
exact rationals modelling the pipeline's numbers: integers print without a
decimal point, other decimal fractions print with the minimal number of
fractional digits, matching the JS shortest-round-trip rendering on every
value the pipeline produces. -/
def jsNumToString (q : Rat) : String :=
  if q.den = 1 then intToDec q.num
  else
    match pow10Exp q.den with
    | some k =>
      let n := q.num.natAbs * (10 ^ k / q.den)
      let intPart := natToDec (n / 10 ^ k)
      let fracDigits := natToDec (n % 10 ^ k)
      let fracPadded := String.mk (List.replicate (k - fracDigits.length) '0') ++ fracDigits
      (if q.num < 0 then "-" else "") ++ intPart ++ "." ++ fracPadded
    | none => intToDec q.num ++ "/" ++ natToDec q.den

/-! ## JavaScript dates

A JS `Date` is modelled by its day number (days since 1970-01-01, UTC). -/

/-- Days since the epoch of a proleptic-Gregorian civil date (m ∈ 1..12,
d may lie outside 1..31: the formula is affine in d, which is exactly the
JS `Date` rollover behaviour). -/
def daysFromCivil (y m d : Int) : Int :=
  let y' := y - (if m ≤ 2 then 1 else 0)
  let era := Int.fdiv y' 400
  let yoe := y' - era * 400
  let mp := Int.emod (m + 9) 12
  let doy := Int.fdiv (153 * mp + 2) 5 + d - 1
  let doe := yoe * 365 + Int.fdiv yoe 4 - Int.fdiv yoe 100 + doy
  era * 146097 + doe - 719468

/-- Civil date (year, month 1..12, day 1..31) of a day number. -/
def civilFromDays (z : Int) : Int × Int × Int :=
  let z' := z + 719468
  let era := Int.fdiv z' 146097
  let doe := z' - era * 146097
  let yoe := Int.fdiv (doe - Int.fdiv doe 1460 + Int.fdiv doe 36524 - Int.fdiv doe 146096) 365
  let y := yoe + era * 400
  let doy := doe - (365 * yoe + Int.fdiv yoe 4 - Int.fdiv yoe 100)
  let mp := Int.fdiv (5 * doy + 2) 153
  let d := doy - Int.fdiv (153 * mp + 2) 5 + 1
  let m := mp + (if mp < 10 then 3 else -9)
  (y + (if m ≤ 2 then 1 else 0), m, d)

/-- `new Date(year, month, day)` (month 0-based, with the JS quirk mapping
years 0..99 to 1900..1999, and full month/day rollover), as a day number. -/
def jsNewDate (y m0 d : Int) : Int :=
  let yy := if 0 ≤ y ∧ y ≤ 99 then y + 1900 else y
  let ym := yy * 12 + m0
  daysFromCivil (Int.fdiv ym 12) (Int.emod ym 12 + 1) d

/-- Left-pad a decimal string with zeros. -/
def padZeros (k : Nat) (s : String) : String :=
  String.mk (List.replicate (k - s.length) '0') ++ s

/-- The date part of `Date.prototype.toISOString` (`YYYY-MM-DD`), assuming a
UTC server timezone. -/
def isoDateOfDays (z : Int) : String :=
  let c := civilFromDays z
  let y := c.1
  let m := c.2.1
  let d := c.2.2
  (if y < 0 then "-" ++ padZeros 6 (natToDec y.natAbs) else padZeros 4 (natToDec y.natAbs))
    ++ "-" ++ padZeros 2 (natToDec m.natAbs) ++ "-" ++ padZeros 2 (natToDec d.natAbs)

/-! ## SHA-256 (FIPS 180-4), modelling `crypto.createHash('sha256')` -/

/-- UTF-8 encoding of a string as a byte list. -/
def utf8Bytes (s : String) : List Nat :=
  s.data.flatMap (fun c =>
    let n := c.toNat
    if n < 0x80 then [n]
    else if n < 0x800 then [0xC0 ||| (n >>> 6), 0x80 ||| (n &&& 0x3F)]
    else if n < 0x10000 then
      [0xE0 ||| (n >>> 12), 0x80 ||| ((n >>> 6) &&& 0x3F), 0x80 ||| (n &&& 0x3F)]
    else
      [0xF0 ||| (n >>> 18), 0x80 ||| ((n >>> 12) &&& 0x3F),
       0x80 ||| ((n >>> 6) &&& 0x3F), 0x80 ||| (n &&& 0x3F)])

/-- Truncation to a 32-bit word. -/
def w32 (n : Nat) : Nat := n % 4294967296

/-- 32-bit right rotation. -/
def rotr32 (r x : Nat) : Nat := w32 ((x >>> r) ||| (x <<< (32 - r)))

/-- SHA-256 round constants. -/
def sha256K : List Nat :=
  [1116352408, 1899447441, 3049323471, 3921009573, 961987163, 1508970993,
   2453635748, 2870763221, 3624381080, 310598401, 607225278, 1426881987,
   1925078388, 2162078206, 2614888103, 3248222580, 3835390401, 4022224774,
   264347078, 604807628, 770255983, 1249150122, 1555081692, 1996064986,
   2554220882, 2821834349, 2952996808, 3210313671, 3336571891, 3584528711,
   113926993, 338241895, 666307205, 773529912, 1294757372, 1396182291,
   1695183700, 1986661051, 2177026350, 2456956037, 2730485921, 2820302411,
   3259730800, 3345764771, 3516065817, 3600352804, 4094571909, 275423344,
   430227734, 506948616, 659060556, 883997877, 958139571, 1322822218,
   1537002063, 1747873779, 1955562222, 2024104815, 2227730452, 2361852424,
   2428436474, 2756734187, 3204031479, 3329325298]

/-- Message padding: append 0x80, zeros to 56 mod 64, then the 64-bit
big-endian bit length. -/
def sha256Pad (msg : List Nat) : List Nat :=
  let len := msg.length
  let zeroCount := (55 + 64 - len % 64) % 64
  let bitLen := 8 * len
  msg ++ [0x80] ++ List.replicate zeroCount 0 ++
    ((List.range 8).map (fun i => (bitLen >>> (8 * (7 - i))) &&& 0xFF))

/-- Split a byte list into 64-byte blocks (structural fuel recursion: every
step consumes at least one element, so `fuel = l.length` always suffices). -/
def chunks64Go : Nat → List Nat → List (List Nat)
  | _, [] => []
  | 0, _ :: _ => []
  | fuel + 1, x :: xs => ((x :: xs).take 64) :: chunks64Go fuel ((x :: xs).drop 64)

/-- Split a byte list into 64-byte blocks. -/
def chunks64 (l : List Nat) : List (List Nat) := chunks64Go l.length l

/-- Big-endian 32-bit words of a byte chunk. -/
def bytesToWords : List Nat → List Nat
  | b0 :: b1 :: b2 :: b3 :: rest =>
    (((b0 <<< 8 ||| b1) <<< 8 ||| b2) <<< 8 ||| b3) :: bytesToWords rest
  | _ => []

/-- Message-schedule extension of the 16 block words to 64 words.
`ws` holds the words produced so far in reverse order. -/
def sha256Extend : Nat → List Nat → List Nat
  | 0, ws => ws
  | n + 1, ws =>
    let w2 := ws.getD 1 0
    let w7 := ws.getD 6 0
    let w15 := ws.getD 14 0
    let w16 := ws.getD 15 0
    let s0 := (rotr32 7 w15) ^^^ (rotr32 18 w15) ^^^ (w15 >>> 3)
    let s1 := (rotr32 17 w2) ^^^ (rotr32 19 w2) ^^^ (w2 >>> 10)
    sha256Extend n (w32 (w16 + s0 + w7 + s1) :: ws)

/-- One round of the SHA-256 compression function.
The state is `[a, b, c, d, e, f, g, h]`. -/
def sha256Round (st : List Nat) (kw : Nat × Nat) : List Nat :=
  let a := st.getD 0 0
  let b := st.getD 1 0
  let c := st.getD 2 0
  let d := st.getD 3 0
  let e := st.getD 4 0
  let f := st.getD 5 0
  let g := st.getD 6 0
  let h := st.getD 7 0
  let s1 := (rotr32 6 e) ^^^ (rotr32 11 e) ^^^ (rotr32 25 e)
  let ch := (e &&& f) ^^^ ((0xFFFFFFFF ^^^ e) &&& g)
  let t1 := w32 (h + s1 + ch + kw.1 + kw.2)
  let s0 := (rotr32 2 a) ^^^ (rotr32 13 a) ^^^ (rotr32 22 a)
  let mj := (a &&& b) ^^^ (a &&& c) ^^^ (b &&& c)
  let t2 := w32 (s0 + mj)
  [w32 (t1 + t2), a, b, c, w32 (d + t1), e, f, g]

/-- Process one 64-byte block, updating the 8-word hash state. -/
def sha256Block (h : List Nat) (block : List Nat) : List Nat :=
  let ws16 := bytesToWords block
  let ws := (sha256Extend 48 ws16.reverse).reverse
  let st := (sha256K.zip ws).foldl (fun st p => sha256Round st (p.1, p.2)) h
  (h.zip st).map (fun p => w32 (p.1 + p.2))

/-- SHA-256 digest (8 words) of a byte list. -/
def sha256Words (msg : List Nat) : List Nat :=
  (chunks64 (sha256Pad msg)).foldl sha256Block
    [1779033703, 3144134277, 1013904242, 2773480762, 1359893119,
     2600822924, 528734635, 1541459225]

/-- Lowercase hex digit. -/
def hexDigit (n : Nat) : Char :=
  if n < 10 then Char.ofNat ('0'.toNat + n) else Char.ofNat ('a'.toNat + (n - 10))

/-- 8-hex-digit rendering of a 32-bit word. -/
def wordToHex (wd : Nat) : String :=
  String.mk ((List.range 8).map (fun i => hexDigit ((wd >>> (4 * (7 - i))) &&& 0xF)))

/-- `crypto.createHash('sha256').update(s).digest('hex')`. -/
def sha256hex (s : String) : String :=
  String.join ((sha256Words (utf8Bytes s)).map wordToHex)

/-! ## JS regular expressions

A backtracking matcher with JavaScript semantics for the features used by the
source patterns: single-character classes, ordered alternation, capture
groups, and greedy/lazy bounded or unbounded quantifiers.  `String.match`
(without the `g` flag) returns the leftmost match; alternatives are tried
left-to-right and greedy (resp. lazy) quantifiers longest (resp. shortest)
first, backtracking through the continuation on failure. -/

/-- Regular expression syntax. -/
inductive Rx where
  | cls (p : Char → Bool)
  | seq (a b : Rx)
  | alt (a b : Rx)
  | grp (idx : Nat) (r : Rx)
  | rep (lo : Nat) (hi : Option Nat) (lazy : Bool) (r : Rx)

/-- Captured groups: group index paired with captured text. -/
def RxCaps := List (Nat × String)

/-- Substring of a character list by positions. -/
def sliceStr (s : List Char) (a b : Nat) : String :=
  String.mk ((s.drop a).take (b - a))

/-- The backtracking matcher in continuation-passing style.  `fuel` bounds the
depth of nested calls (each recursive call decrements it); all quantified
subexpressions of the embedded patterns consume at least one character, so the
generous fuel supplied by `rxSearch` never runs out on them. -/
def rxMatch (fuel : Nat) (s : List Char) (r : Rx) (pos : Nat) (caps : RxCaps)
    (k : Nat → RxCaps → Option (Nat × RxCaps)) : Option (Nat × RxCaps) :=
  match fuel with
  | 0 => none
  | fuel + 1 =>
    match r with
    | .cls p =>
      match s.get? pos with
      | some c => if p c then k (pos + 1) caps else none
      | none => none
    | .seq a b =>
      rxMatch fuel s a pos caps (fun pos2 caps2 => rxMatch fuel s b pos2 caps2 k)
    | .alt a b =>
      match rxMatch fuel s a pos caps k with
      | some res => some res
      | none => rxMatch fuel s b pos caps k
    | .grp i r =>
      rxMatch fuel s r pos caps (fun pos2 caps2 => k pos2 ((i, sliceStr s pos pos2) :: caps2))
    | .rep lo hi lz r =>
      match lo with
      | n + 1 =>
        rxMatch fuel s r pos caps (fun pos2 caps2 =>
          rxMatch fuel s (.rep n (hi.map (· - 1)) lz r) pos2 caps2 k)
      | 0 =>
        if hi == some 0 then k pos caps
        else if lz then
          match k pos caps with
          | some res => some res
          | none =>
            rxMatch fuel s r pos caps (fun pos2 caps2 =>
              rxMatch fuel s (.rep 0 (hi.map (· - 1)) true r) pos2 caps2 k)
        else
          match rxMatch fuel s r pos caps (fun pos2 caps2 =>
              rxMatch fuel s (.rep 0 (hi.map (· - 1)) false r) pos2 caps2 k) with
          | some res => some res
          | none => k pos caps

/-- Leftmost-match search from consecutive start positions (`String.match`
without `g`).  Returns the start and end positions and the captures. -/
def rxSearchList (s : List Char) (r : Rx) : Option (Nat × Nat × RxCaps) :=
  let fuel := (s.length + 2) * 16 + 64
  (List.range (s.length + 1)).findSome? (fun start =>
    match rxMatch fuel s r start [] (fun p c => some (p, c)) with
    | some (stop, caps) => some (start, stop, caps)
    | none => none)

/-- Result of a successful `String.match`: `match[0]` and the numbered groups. -/
structure RxMatch where
  whole : String
  groups : RxCaps

/-- `s.match(r)`, `none` when there is no match. -/
def jsMatch (s : String) (r : Rx) : Option RxMatch :=
  match rxSearchList s.data r with
  | some (a, b, caps) => some ⟨sliceStr s.data a b, caps⟩
  | none => none

/-- `match[i]` as an optional string (`none` models `undefined`). -/
def RxMatch.grpStr (m : RxMatch) (i : Nat) : Option String :=
  (m.groups.find? (fun p => p.1 == i)).map (·.2)

/-- `match[i]` with JS falsy coercion: `undefined` becomes the empty string. -/
def RxMatch.grpD (m : RxMatch) (i : Nat) : String :=
  (m.grpStr i).getD ""

/-! Pattern building blocks, transcribed from the source regex literals. -/

/-- `\d`. -/
def rxDigit : Rx := .cls Char.isDigit

/-- `\s`. -/
def rxWs : Rx := .cls jsIsWs

/-- `[-\/]`. -/
def rxDashSlash : Rx := .cls (fun c => c == '-' || c == '/')

/-- `[-\s]`. -/
def rxDashWs : Rx := .cls (fun c => c == '-' || jsIsWs c)

/-- `.` (any character but a line terminator). -/
def rxDot : Rx := .cls (fun c => !(c == '\n' || c == '\r'))

/-- `[+-]`. -/
def rxPlusMinus : Rx := .cls (fun c => c == '+' || c == '-')

/-- Greedy `r{lo,hi}`. -/
def rxRep (lo hi : Nat) (r : Rx) : Rx := .rep lo (some hi) false r

/-- Greedy `r+`. -/
def rxPlus (r : Rx) : Rx := .rep 1 none false r

/-- Greedy `r*`. -/
def rxStar (r : Rx) : Rx := .rep 0 none false r

/-- Greedy `r?`. -/
def rxOpt (r : Rx) : Rx := .rep 0 (some 1) false r

/-- Sequencing of a list of expressions. -/
def rxSeqList : List Rx → Rx
  | [] => .rep 0 (some 0) false rxDot
  | [r] => r
  | r :: rest => .seq r (rxSeqList rest)

/-- Case-insensitive literal word (the `i` flag of the source patterns
matters only for the month-name alternatives). -/
def rxWordCI (w : String) : Rx :=
  rxSeqList (w.data.map (fun c => Rx.cls (fun x => jsLowerChar x == jsLowerChar c)))

/-- `(Jan|Feb|Mar|Apr|May|Jun|Jul|Aug|Sep|Oct|Nov|Dec)` with the `i` flag. -/
def rxMonthAlt : Rx :=
  ["Jan", "Feb", "Mar", "Apr", "May", "Jun", "Jul", "Aug", "Sep", "Oct", "Nov"]
    |>.map rxWordCI |>.foldr .alt (rxWordCI "Dec")

/-! The six regex literals of `statement-parser.service.ts`. -/

/-- `parseDate` format 1: `/(\d{1,2})[-\/](\d{1,2})[-\/](\d{2,4})/`. -/
def dateFmt1 : Rx :=
  rxSeqList [.grp 1 (rxRep 1 2 rxDigit), rxDashSlash, .grp 2 (rxRep 1 2 rxDigit),
    rxDashSlash, .grp 3 (rxRep 2 4 rxDigit)]

/-- `parseDate` format 2: `/(\d{4})[-\/](\d{1,2})[-\/](\d{1,2})/`. -/
def dateFmt2 : Rx :=
  rxSeqList [.grp 1 (rxRep 4 4 rxDigit), rxDashSlash, .grp 2 (rxRep 1 2 rxDigit),
    rxDashSlash, .grp 3 (rxRep 1 2 rxDigit)]

/-- `parseDate` format 3:
`/(\d{1,2})[-\s](Jan|...|Dec)[-\s](\d{2,4})/i`. -/
def dateFmt3 : Rx :=
  rxSeqList [.grp 1 (rxRep 1 2 rxDigit), rxDashWs, .grp 2 rxMonthAlt,
    rxDashWs, .grp 3 (rxRep 2 4 rxDigit)]

/-- The amount fragment `([+-]?\d+\.?\d*)` shared by the PDF patterns. -/
def rxAmountFrag : Rx :=
  rxSeqList [rxOpt rxPlusMinus, rxPlus rxDigit, rxOpt (.cls (fun c => c == '.')),
    rxStar rxDigit]

/-- The date-token fragment `\d{1,2}[-\/]\d{1,2}[-\/]\d{2,4}` of the PDF
patterns (non-capturing inside its enclosing group). -/
def rxDateFrag : Rx :=
  rxSeqList [rxRep 1 2 rxDigit, rxDashSlash, rxRep 1 2 rxDigit, rxDashSlash,
    rxRep 2 4 rxDigit]

/-- PDF pattern 1:
`/(\d{1,2}[-\/]\d{1,2}[-\/]\d{2,4})\s+([+-]?\d+\.?\d*)\s+(.+)/i`. -/
def pdfPattern1 : Rx :=
  rxSeqList [.grp 1 rxDateFrag, rxPlus rxWs, .grp 2 rxAmountFrag, rxPlus rxWs,
    .grp 3 (rxPlus rxDot)]

/-- PDF pattern 2:
`/(\d{1,2}[-\s](Jan|...|Dec)[-\s]\d{2,4})\s+([+-]?\d+\.?\d*)\s+(.+)/i`. -/
def pdfPattern2 : Rx :=
  rxSeqList [.grp 1 (rxSeqList [rxRep 1 2 rxDigit, rxDashWs, .grp 2 rxMonthAlt,
      rxDashWs, rxRep 2 4 rxDigit]),
    rxPlus rxWs, .grp 3 rxAmountFrag, rxPlus rxWs, .grp 4 (rxPlus rxDot)]

/-- PDF pattern 3:
`/(.+?)\s+([+-]?\d+\.?\d*)\s+(\d{1,2}[-\/]\d{1,2}[-\/]\d{2,4})/i`. -/
def pdfPattern3 : Rx :=
  rxSeqList [.grp 1 (.rep 1 none true rxDot), rxPlus rxWs, .grp 2 rxAmountFrag,
    rxPlus rxWs, .grp 3 rxDateFrag]

/-! ## `statement-parser.service.ts`: `parseDate` -/

/-- The `months` table of `parseDate` (0-based month indices). -/
def monthsTable : List (String × Int) :=
  [("jan", 0), ("feb", 1), ("mar", 2), ("apr", 3), ("may", 4), ("jun", 5),
   ("jul", 6), ("aug", 7), ("sep", 8), ("oct", 9), ("nov", 10), ("dec", 11)]

/-- `months[key]`; the default is unreachable because the key always comes
from the matched month-name alternation. -/
def monthIndex (key : String) : Int :=
  ((monthsTable.find? (fun p => p.1 == key)).map (·.2)).getD 0

/-- The ECMAScript-mandated `YYYY-MM-DD` subset of `new Date(string)`; other
input shapes are implementation-defined and never parse in this model (no
verified property exercises the constructor fallback on any other shape). -/
def jsDateParseISO (s : String) : Option Int :=
  match s.data with
  | [y1, y2, y3, y4, '-', m1, m2, '-', d1, d2] =>
    if ([y1, y2, y3, y4, m1, m2, d1, d2].all Char.isDigit) then
      let y := (digitsToNat [y1, y2, y3, y4] : Int)
      let m := (digitsToNat [m1, m2] : Int)
      let d := (digitsToNat [d1, d2] : Int)
      if 1 ≤ m ∧ m ≤ 12 ∧ 1 ≤ d ∧ d ≤ 31 then some (daysFromCivil y m d) else none
    else none
  | _ => none

/-- The body executed by `parseDate` when one of the three formats matched
(the `try`/`catch` of the source cannot fire: `parseInt` never throws and the
month-name key is always present, so it is dropped). -/
def parseDateWithMatch (m : RxMatch) : Int :=
  if m.grpD 2 ≠ "" ∧ (jsParseInt (m.grpD 2)).isNone then
    let day := (jsParseInt (m.grpD 1)).getD 0
    let month := monthIndex ((jsToLower (m.grpD 2)).take 3)
    let year0 := (jsParseInt (m.grpD 3)).getD 0
    let year := if year0 < 100 then year0 + 2000 else year0
    jsNewDate year month day
  else
    if jsIncludes m.whole (m.grpD 3) ∧ (jsParseInt (m.grpD 3)).getD 0 > 31 then
      jsNewDate ((jsParseInt (m.grpD 1)).getD 0)
        ((jsParseInt (m.grpD 2)).getD 0 - 1) ((jsParseInt (m.grpD 3)).getD 0)
    else
      let year0 := (jsParseInt (m.grpD 3)).getD 0
      let year := if year0 < 100 then year0 + 2000 else year0
      jsNewDate year ((jsParseInt (m.grpD 2)).getD 0 - 1) ((jsParseInt (m.grpD 1)).getD 0)

/-- `parseDate` of `statement-parser.service.ts`: the three formats are tried
in order and the first match decides; otherwise the `Date`-constructor
fallback. -/
def parseDate (dateStr : String) : Option Int :=
  if dateStr == "" then none
  else
    match jsMatch dateStr dateFmt1 with
    | some m => some (parseDateWithMatch m)
    | none =>
      match jsMatch dateStr dateFmt2 with
      | some m => some (parseDateWithMatch m)
      | none =>
        match jsMatch dateStr dateFmt3 with
        | some m => some (parseDateWithMatch m)
        | none => jsDateParseISO dateStr

/-! ## `statement-parser.service.ts`: CSV helpers and extractors -/

/-- JS `String.prototype.split` with a one-character separator (used by the
parser as `split('\n')` and `split(',')`). -/
def splitChar (sep : Char) (s : String) : List String :=
  let r := s.data.foldl
    (fun (acc : List (List Char) × List Char) c =>
      if c = sep then (acc.1 ++ [acc.2], []) else (acc.1, acc.2 ++ [c]))
    ([], [])
  (r.1 ++ [r.2]).map String.mk

/-- `findColumnIndex`: first keyword (in order) contained in some column of
the comma-split header; `-1` when none matches. -/
def findColumnIndex (header : String) (keywords : List String) : Int :=
  let columns := (splitChar ',' header).map (fun col => jsToLower (jsTrim col))
  match keywords.findSome? (fun keyword =>
      columns.findIdx? (fun col => jsIncludes col (jsToLower keyword))) with
  | some index => (index : Int)
  | none => -1

/-- `parseCSVLine`: split on commas outside double quotes, trimming fields. -/
def parseCSVLine (line : String) : List String :=
  let st := line.data.foldl
    (fun (acc : List String × List Char × Bool) c =>
      let (result, current, inQuotes) := acc
      if c == '"' then (result, current, !inQuotes)
      else if c == ',' && !inQuotes then (result ++ [jsTrim (String.mk current.reverse)], [], inQuotes)
      else (result, c :: current, inQuotes))
    ([], [], false)
  st.1 ++ [jsTrim (String.mk st.2.1.reverse)]

/-- A `ParsedTransaction` as manipulated by the service and the handlers
(the candidate of one extracted row, including its `_tempId`). -/
structure ParsedTx where
  date : Int
  amount : Rat
  description : String
  txType : String
  referenceNumber : Option String := none
  balance : Option Rat := none
  isDuplicate : Bool := false
  matchingTransactionId : Option Nat := none
  tempId : String
deriving Repr, DecidableEq

/-- The body of the `parseCSVStatement` row loop for one trimmed non-empty
line: `none` both for `continue` and for the caught per-row exceptions (an
out-of-range amount or description column read yields `undefined`, whose
method call throws). -/
def csvRowToCandidate (dateCol amountCol descriptionCol typeCol balanceCol : Int)
    (i : Nat) (line : String) : Option ParsedTx :=
  let columns := parseCSVLine line
  if columns.length < 3 then none
  else
    let dateStrO := if 0 ≤ dateCol then columns.get? dateCol.toNat else columns.get? 0
    let amountStrO := if 0 ≤ amountCol then columns.get? amountCol.toNat else columns.get? 1
    let descStrO := if 0 ≤ descriptionCol then columns.get? descriptionCol.toNat else columns.get? 2
    let typeStr := (if 0 ≤ typeCol then columns.get? typeCol.toNat else some "").getD ""
    let balanceStrO := if 0 ≤ balanceCol then columns.get? balanceCol.toNat else some ""
    match (match dateStrO with | some ds => parseDate ds | none => none) with
    | none => none
    | some date =>
      match amountStrO with
      | none => none
      | some amountStr =>
        match jsParseFloat (cleanNumericString amountStr) with
        | none => none
        | some amount =>
          if amount = 0 then none
          else
            let signType := if amount > 0 then "income" else "expense"
            let txType :=
              if typeStr ≠ "" then
                let typeLower := jsToLower typeStr
                if jsIncludes typeLower "debit" || jsIncludes typeLower "dr"
                    || jsIncludes typeLower "withdraw" then "expense"
                else if jsIncludes typeLower "credit" || jsIncludes typeLower "cr"
                    || jsIncludes typeLower "deposit" then "income"
                else signType
              else signType
            let balance :=
              match balanceStrO with
              | some bs => if bs ≠ "" then jsParseFloat (cleanNumericString bs) else none
              | none => none
            match descStrO with
            | none => none
            | some descStr =>
              some { date := date, amount := |amount|, description := jsTrim descStr,
                     txType := txType, balance := balance, tempId := "temp_" ++ natToDec i }

/-- `parseCSVStatement`: header-based column detection with the headerless
fallback, then the row loop; throws on fewer than two lines. -/
def parseCSVStatement (fileContent : String) : Except String (List ParsedTx) :=
  let lines := splitChar '\n' (jsTrim fileContent)
  if lines.length < 2 then .error "CSV file is empty or invalid"
  else
    let headerRow := jsToLower (lines.getD 0 "")
    let dateCol := findColumnIndex headerRow ["date", "transaction date", "transaction_date"]
    let amountCol := findColumnIndex headerRow ["amount", "transaction amount", "transaction_amount"]
    let descriptionCol := findColumnIndex headerRow ["description", "particulars", "narration", "details"]
    let typeCol := findColumnIndex headerRow ["type", "transaction type", "debit/credit", "dr/cr"]
    let balanceCol := findColumnIndex headerRow ["balance", "closing balance", "closing_balance"]
    let dataStartIndex := if dateCol == -1 || amountCol == -1 || descriptionCol == -1 then 0 else 1
    .ok (((List.range lines.length).drop dataStartIndex).filterMap (fun i =>
      let line := jsTrim (lines.getD i "")
      if line == "" then none
      else csvRowToCandidate dateCol amountCol descriptionCol typeCol balanceCol i line))

/-- `match[3] || match[4] || ''` (JS falsy coalescing on group strings). -/
def jsOrGroups (a b : Option String) : String :=
  match a with
  | some s => if s ≠ "" then s else (match b with | some t => t | none => "")
  | none => match b with | some t => t | none => ""

/-- One pattern attempt of the `parsePDFStatement` line loop: `none` when the
regex does not match or the matched groups fail the date/amount/description
validation (in which case the source falls through to the next pattern). -/
def pdfTryPattern (trimmedLine : String) (r : Rx) : Option (Int × Rat × String) :=
  match jsMatch trimmedLine r with
  | none => none
  | some m =>
    let thirdIsDate :=
      match m.grpStr 3 with
      | some s => s ≠ "" && (jsParseFloat s).isNone
      | none => false
    let dateO := if thirdIsDate then parseDate (m.grpD 3) else parseDate (m.grpD 1)
    let amountO := jsParseFloat (m.grpD 2)
    let description := if thirdIsDate then m.grpD 1 else jsOrGroups (m.grpStr 3) (m.grpStr 4)
    match dateO, amountO with
    | some date, some amount =>
      if amount ≠ 0 ∧ jsTrim description ≠ "" then some (date, amount, description) else none
    | _, _ => none

/-- `parsePDFStatement` on the text extracted from the PDF: the cascade of
the three patterns over each non-blank line, first validated match wins,
sequential temp ids. -/
def parsePDFStatement (text : String) : List ParsedTx :=
  ((splitChar '\n' text).foldl
    (fun (acc : List ParsedTx × Nat) line =>
      let trimmedLine := jsTrim line
      if trimmedLine == "" then acc
      else
        match (pdfTryPattern trimmedLine pdfPattern1).orElse
            (fun _ => (pdfTryPattern trimmedLine pdfPattern2).orElse
              (fun _ => pdfTryPattern trimmedLine pdfPattern3)) with
        | some (date, amount, description) =>
          (acc.1 ++ [{ date := date, amount := |amount|, description := jsTrim description,
                       txType := if amount > 0 then "income" else "expense",
                       tempId := "temp_" ++ natToDec acc.2 }], acc.2 + 1)
        | none => acc)
    ([], 0)).1

/-! ## Data model: Mongo collections as lists (insertion order) -/

/-- ASCII upper-casing (the `uppercase: true` Mongoose setter). -/
def jsToUpper (s : String) : String :=
  String.mk (s.data.map (fun c => if 'a' ≤ c ∧ c ≤ 'z' then Char.ofNat (c.toNat - 32) else c))

/-- A ledger transaction document (`Transaction` model).  `txId` models the
Mongo `_id`, allocated from a counter; `deletedAt` is the soft-delete mark. -/
structure LedgerTx where
  txId : Nat
  userId : String
  accountId : String
  accountType : String
  txType : String
  amount : Rat
  currency : String
  description : String
  date : Int
  referenceNumber : Option String := none
  duplicateCheckHash : String
  status : String := "completed"
  deletedAt : Option Int := none
deriving Repr, DecidableEq

/-- A bank account document (`BankAccount` model), restricted to the fields
the pipeline touches. -/
structure BankAccount where
  accountId : String
  userId : String
  currency : String
  currentBalance : Rat
deriving Repr, DecidableEq

/-- A statement-upload document (`BankStatement` model). -/
structure BankStatementRec where
  stmtId : String
  userId : String
  bankAccountId : String
  fileType : String
  filePath : Option String := none
  parseStatus : String := "pending"
  transactionCount : Nat := 0
  parsedTransactions : List ParsedTx := []
  errorMessage : Option String := none
deriving Repr, DecidableEq

/-- The persistent state owned by the pipeline and its collaborators. -/
structure DB where
  transactions : List LedgerTx := []
  accounts : List BankAccount := []
  statements : List BankStatementRec := []
  nextTxId : Nat := 0
deriving Repr, DecidableEq

/-- `Map.get` of the JS `Map`. -/
def mapGet {α : Type} (m : List (String × α)) (k : String) : Option α :=
  (m.find? (fun p => p.1 == k)).map (·.2)

/-- `Map.set` of the JS `Map`: replace in place or append. -/
def mapSet {α : Type} (m : List (String × α)) (k : String) (v : α) : List (String × α) :=
  if m.any (fun p => p.1 == k) then m.map (fun p => if p.1 == k then (k, v) else p)
  else m ++ [(k, v)]

/-! ## `transaction.service.ts` -/

/-- `generateDuplicateHash`: sha256 hex of
`dateISO | amount | lower(trim(description)) | accountId`. -/
def generateDuplicateHash (date : Int) (amount : Rat) (description accountId : String) : String :=
  let normalizedDescription := jsToLower (jsTrim description)
  let dateStr := isoDateOfDays date
  let hashString := dateStr ++ "|" ++ jsNumToString amount ++ "|" ++ normalizedDescription
    ++ "|" ++ accountId
  sha256hex hashString

/-- The anonymous record handed to `checkDuplicates`. -/
structure DupCheckInput where
  date : Int
  amount : Rat
  description : String
  accountId : String
deriving Repr, DecidableEq

/-- `checkDuplicates`: per candidate, fingerprint and a
`Transaction.findOne({ userId, duplicateCheckHash })` lookup — note that the
query carries no `deletedAt` filter.  Pure read: the state is not changed. -/
def checkDuplicates (db : DB) (userId : String) (transactions : List DupCheckInput) :
    List (String × Option LedgerTx) :=
  transactions.foldl
    (fun duplicateMap tx =>
      let hash := generateDuplicateHash tx.date tx.amount tx.description tx.accountId
      let existing := db.transactions.find?
        (fun t => t.userId == userId && t.duplicateCheckHash == hash)
      mapSet duplicateMap hash existing)
    []

/-- The payload of `createTransaction(s)`. -/
structure CreateTransactionData where
  userId : String
  accountId : String
  accountType : String
  txType : String
  amount : Rat
  currency : String
  description : String
  date : Int
  referenceNumber : Option String := none
deriving Repr, DecidableEq

/-- Construction of the `Transaction` document with the schema setters
applied (`trim` on description and reference, `uppercase` on currency). -/
def buildLedgerTx (db : DB) (txData : CreateTransactionData) (hash : String) : LedgerTx :=
  { txId := db.nextTxId, userId := txData.userId, accountId := txData.accountId,
    accountType := txData.accountType, txType := txData.txType, amount := txData.amount,
    currency := jsToUpper txData.currency, description := jsTrim txData.description,
    date := txData.date, referenceNumber := txData.referenceNumber.map jsTrim,
    duplicateCheckHash := hash, status := "completed", deletedAt := none }

/-- Schema validation run by `transaction.save()`: `amount` has `min: 0`,
`description`/`currency` are required (empty strings fail `required`), and
the two enums must hold.  There is no uniqueness constraint: the
`(userId, duplicateCheckHash)` index of the schema is not declared unique. -/
def txValid (t : LedgerTx) : Bool :=
  0 ≤ t.amount && t.description ≠ "" && t.currency ≠ ""
    && (t.txType == "income" || t.txType == "expense" || t.txType == "transfer")
    && (t.accountType == "bank" || t.accountType == "cash")

/-- Result of `createTransactions`: created documents in order, the two
counters, and the updated state. -/
structure CTResult where
  created : List LedgerTx
  skipped : Nat
  duplicates : Nat
  db : DB
deriving Repr, DecidableEq

/-- `createTransactions` (bulk import): per candidate, re-derive the
fingerprint; only when `skipDuplicates` is set, look up an existing
non-deleted transaction with it and count a hit as duplicate; otherwise save.
A save (validation) failure is counted as skipped — the catch arm comparing
the message with 'Duplicate transaction detected' cannot fire here, since
`save` has no duplicate check. -/
def createTransactions (db : DB) (transactions : List CreateTransactionData)
    (skipDuplicates : Bool) : CTResult :=
  match transactions with
  | [] => ⟨[], 0, 0, db⟩
  | txData :: rest =>
    let hash := generateDuplicateHash txData.date txData.amount txData.description txData.accountId
    let existingDup := skipDuplicates &&
      (db.transactions.find? (fun t =>
        t.userId == txData.userId && t.duplicateCheckHash == hash && t.deletedAt.isNone)).isSome
    if existingDup then
      let r := createTransactions db rest skipDuplicates
      { r with duplicates := r.duplicates + 1 }
    else
      let t := buildLedgerTx db txData hash
      if txValid t then
        let db2 := { db with transactions := db.transactions ++ [t], nextTxId := db.nextTxId + 1 }
        let r := createTransactions db2 rest skipDuplicates
        { r with created := t :: r.created }
      else
        let r := createTransactions db rest skipDuplicates
        { r with skipped := r.skipped + 1 }

/-! ## `statement-parser.service.ts`: `detectDuplicates` -/

/-- `detectDuplicates`: fingerprint every candidate, consult
`checkDuplicates`, and tag each candidate with its duplicate flag and the
matching transaction id. -/
def detectDuplicates (db : DB) (userId : String) (transactions : List ParsedTx)
    (accountId : String) : List ParsedTx :=
  let duplicateMap := checkDuplicates db userId
    (transactions.map (fun tx => ⟨tx.date, tx.amount, tx.description, accountId⟩))
  transactions.map (fun tx =>
    let hash := generateDuplicateHash tx.date tx.amount tx.description accountId
    let existing := (mapGet duplicateMap hash).join
    { tx with isDuplicate := existing.isSome,
              matchingTransactionId := existing.map (·.txId) })

/-! ## `account.service.ts` -/

/-- `getBankAccountById`: `findOne({_id, userId})`. -/
def getBankAccountById (db : DB) (accountId userId : String) : Option BankAccount :=
  db.accounts.find? (fun a => a.accountId == accountId && a.userId == userId)

/-- In-place update of the first account document with the given id. -/
def bumpFirstAccount : List BankAccount → String → Rat → List BankAccount
  | [], _, _ => []
  | a :: rest, accountId, amount =>
    if a.accountId == accountId then
      { a with currentBalance := a.currentBalance + amount } :: rest
    else a :: bumpFirstAccount rest accountId amount

/-- `updateBankAccountBalance`: `findById`, add the delta to
`currentBalance`, save. -/
def updateBankAccountBalance (db : DB) (accountId : String) (amount : Rat) :
    Option BankAccount × DB :=
  match db.accounts.find? (fun a => a.accountId == accountId) with
  | none => (none, db)
  | some account =>
    (some { account with currentBalance := account.currentBalance + amount },
     { db with accounts := bumpFirstAccount db.accounts accountId amount })

/-! ## Statement controller handlers

The handlers are modelled as state transformers `Request → DB → Response × DB`.
Request fields already carry the parsed JS values (dates as day numbers,
amounts as rationals); option fields model `undefined`. -/

/-- `BankStatement.findOne({_id: statementId, userId})`. -/
def findStatement (db : DB) (statementId userId : String) : Option BankStatementRec :=
  db.statements.find? (fun s => s.stmtId == statementId && s.userId == userId)

/-- Write a statement document back to its collection (`statement.save()`,
successful case). -/
def saveStatement (db : DB) (stmt : BankStatementRec) : DB :=
  { db with statements := db.statements.map (fun s => if s.stmtId == stmt.stmtId then stmt else s) }

/-- Validation run by `statement.save()` over the embedded candidate list
(`ParsedTransactionSchema`): `description` required (trimmed), `type` must be
one of the two enum values.  `amount` carries no constraint at all. -/
def parsedTxValid (c : ParsedTx) : Bool :=
  jsTrim c.description ≠ "" && (c.txType == "income" || c.txType == "expense")

/-- `statement.save()` as a fallible write. -/
def trySaveStatement (db : DB) (stmt : BankStatementRec) : Except String DB :=
  if stmt.parsedTransactions.all parsedTxValid then .ok (saveStatement db stmt)
  else .error "ValidationError"

/-- Request of `POST /statements/:id/parse`; `fileContent` is the text
obtained from the stored file (for a PDF, the `pdf-parse` text output). -/
structure ParseReq where
  userId : String
  statementId : String
  fileContent : String

/-- Response of the parse handler. -/
inductive ParseRes where
  | ok (transactions : List ParsedTx)
  | err (status : Nat) (msg : String)
deriving Repr, DecidableEq

/-- `parseStatementHandler`: mark `parsing`, run the extractor for the file
type, tag duplicates, store the candidates and mark `completed`; on an
extraction error mark `failed` with the message and answer 500. -/
def parseStatementHandler (req : ParseReq) (db : DB) : ParseRes × DB :=
  match findStatement db req.statementId req.userId with
  | none => (.err 404 "Statement not found", db)
  | some statement =>
    match statement.filePath with
    | none => (.err 400 "File path not found", db)
    | some _ =>
      let statement1 := { statement with parseStatus := "parsing" }
      match trySaveStatement db statement1 with
      | .error e => (.err 500 e, db)
      | .ok db1 =>
        let parsed : Except String (List ParsedTx) :=
          if statement1.fileType == "pdf" then .ok (parsePDFStatement req.fileContent)
          else parseCSVStatement req.fileContent
        match parsed with
        | .ok parsedTransactions =>
          let transactionsWithDuplicates :=
            detectDuplicates db1 req.userId parsedTransactions statement1.bankAccountId
          let statement2 := { statement1 with
            parsedTransactions := transactionsWithDuplicates,
            transactionCount := transactionsWithDuplicates.length,
            parseStatus := "completed" }
          match trySaveStatement db1 statement2 with
          | .ok db2 => (.ok transactionsWithDuplicates, db2)
          | .error e =>
            let statement3 := { statement2 with parseStatus := "failed", errorMessage := some e }
            match trySaveStatement db1 statement3 with
            | .ok db2 => (.err 500 e, db2)
            | .error e2 => (.err 500 e2, db1)
        | .error msg =>
          let statement3 := { statement1 with parseStatus := "failed", errorMessage := some msg }
          match trySaveStatement db1 statement3 with
          | .ok db2 => (.err 500 msg, db2)
          | .error e2 => (.err 500 e2, db1)

/-- Request of `PUT /statements/:id/transactions/:transactionId`.  Option
fields model absent body fields; the source guards `date`, `description` and
`type` by truthiness and `amount`/`referenceNumber` by an `undefined` check. -/
structure EditReq where
  userId : String
  statementId : String
  transactionId : String
  date : Option Int := none
  amount : Option Rat := none
  description : Option String := none
  txType : Option String := none
  referenceNumber : Option String := none

/-- Response of the edit handler. -/
inductive EditRes where
  | ok (tx : ParsedTx)
  | err (status : Nat) (msg : String)
deriving Repr, DecidableEq

/-- The unreachable default for indexed candidate access. -/
def dummyParsedTx : ParsedTx :=
  { date := 0, amount := 0, description := "", txType := "", tempId := "" }

/-- A candidate as `ParsedTransactionSchema` actually persists it: the
schema's paths only.  `_tempId` is not a schema path and subdocument ids are
disabled (`_id: false`), so a stored candidate carries no identifier. -/
structure StoredParsedTx where
  date : Int
  amount : Rat
  description : String
  txType : String
  referenceNumber : Option String := none
  balance : Option Rat := none
  isDuplicate : Bool := false
  matchingTransactionId : Option Nat := none
deriving Repr, DecidableEq

/-- Mongoose's strict cast of an assigned candidate onto the schema paths:
what `statement.parsedTransactions = ...` followed by `save()` keeps of it. -/
def castStored (c : ParsedTx) : StoredParsedTx :=
  { date := c.date, amount := c.amount, description := c.description,
    txType := c.txType, referenceNumber := c.referenceNumber,
    balance := c.balance, isDuplicate := c.isDuplicate,
    matchingTransactionId := c.matchingTransactionId }

/-- JS strict equality `undefined === s` for a string `s`: the operands have
different types, so the comparison is `false` for every string. -/
def undefinedStrictEqString (_s : String) : Bool := false

/-- The edit lookup's predicate on one stored candidate:
`tx._tempId === transactionId || tx._id?.toString() === transactionId`.
A stored candidate has no `_tempId` path and no `_id`, so both reads yield
`undefined` (`?.` short-circuits to `undefined`), and each disjunct compares
`undefined` with the string route parameter. -/
def storedEditMatch (_tx : StoredParsedTx) (transactionId : String) : Bool :=
  undefinedStrictEqString transactionId || undefinedStrictEqString transactionId

/-- The field-overwrite tail of `editParsedTransactionHandler` (everything
after a `findIndex` hit): overwrite the supplied fields without any value
validation, re-run duplicate detection on the edited candidate, persist. -/
def editApplyUpdate (req : EditReq) (db : DB) (statement : BankStatementRec)
    (transactionIndex : Nat) : EditRes × DB :=
  let t0 := statement.parsedTransactions.getD transactionIndex dummyParsedTx
  let t1 : ParsedTx := { t0 with
    date := match req.date with | some d => d | none => t0.date,
    amount := match req.amount with | some a => a | none => t0.amount,
    description := match req.description with
      | some s => if s ≠ "" then s else t0.description
      | none => t0.description,
    txType := match req.txType with
      | some s => if s ≠ "" then s else t0.txType
      | none => t0.txType,
    referenceNumber := match req.referenceNumber with
      | some r => some r
      | none => t0.referenceNumber }
  let withDup := detectDuplicates db req.userId [t1] statement.bankAccountId
  let t2 := withDup.getD 0 t1
  let statement2 := { statement with
    parsedTransactions := statement.parsedTransactions.set transactionIndex t2 }
  match trySaveStatement db statement2 with
  | .ok db2 => (.ok t2, db2)
  | .error e => (.err 400 e, db)

/-- `editParsedTransactionHandler` on the document as it is actually stored:
`findIndex` runs over the persisted candidates (schema paths only), so its
predicate compares `undefined` identifiers with the route parameter.  The
update arm is the source's, kept for fidelity; the C7 theorem proves the
lookup never hits, making that arm unreachable. -/
def editParsedTransactionHandlerStored (req : EditReq) (db : DB) : EditRes × DB :=
  match findStatement db req.statementId req.userId with
  | none => (.err 404 "Statement not found", db)
  | some statement =>
    if statement.parseStatus ≠ "completed" then
      (.err 400 "Statement parsing not completed", db)
    else
      match (statement.parsedTransactions.map castStored).findIdx?
          (fun tx => storedEditMatch tx req.transactionId) with
      | none => (.err 404 "Transaction not found", db)
      | some transactionIndex => editApplyUpdate req db statement transactionIndex

/-- Request of `POST /statements/:id/confirm`. -/
structure ConfirmReq where
  userId : String
  statementId : String
  transactionIds : Option (List String) := none
  skipDuplicates : Bool := false

/-- The internal outcome of a confirm call, keeping the created documents
(`result.created` of the source) for the balance computation. -/
structure ConfirmSuccess where
  created : List LedgerTx
  skipped : Nat
  duplicates : Nat
  accountId : String
deriving Repr, DecidableEq

/-- Outcome of `confirmParsedTransactions`. -/
inductive ConfirmOutcome where
  | success (s : ConfirmSuccess)
  | failure (status : Nat) (msg : String)
deriving Repr, DecidableEq

/-- The `result.created.reduce` computing the net balance delta of the
confirm handler (income adds, expense subtracts, anything else is neutral). -/
def signedBalanceChange (created : List LedgerTx) : Rat :=
  created.foldl
    (fun sum tx =>
      if tx.txType == "income" then sum + tx.amount
      else if tx.txType == "expense" then sum - tx.amount
      else sum) 0

/-- The candidate selection and payload conversion of the confirm handler:
explicit non-empty id list (else all), minus the flagged duplicates when
`skipDuplicates` is set, converted to creation payloads carrying the linked
account's currency. -/
def confirmBatch (req : ConfirmReq) (statement : BankStatementRec)
    (bankAccount : BankAccount) : List CreateTransactionData :=
  let base : List ParsedTx := statement.parsedTransactions
  let selected : List ParsedTx :=
    match req.transactionIds with
    | some transactionIds =>
      if transactionIds.length > 0 then
        base.filter (fun tx => transactionIds.contains tx.tempId)
      else base
    | none => base
  let transactionsToImport : List ParsedTx :=
    if req.skipDuplicates then selected.filter (fun tx => !tx.isDuplicate) else selected
  transactionsToImport.map (fun tx =>
    { userId := req.userId, accountId := statement.bankAccountId, accountType := "bank",
      txType := tx.txType, amount := tx.amount, currency := bankAccount.currency,
      description := tx.description, date := tx.date,
      referenceNumber := tx.referenceNumber })

/-- `confirmParsedTransactionsHandler`, body: select the candidates, bulk
create them, and apply the net signed delta to the account balance once when
anything was created. -/
def confirmParsedTransactions (req : ConfirmReq) (db : DB) : ConfirmOutcome × DB :=
  match findStatement db req.statementId req.userId with
  | none => (.failure 404 "Statement not found", db)
  | some statement =>
    if statement.parseStatus ≠ "completed" then
      (.failure 400 "Statement parsing not completed", db)
    else
      match getBankAccountById db statement.bankAccountId req.userId with
      | none => (.failure 404 "Bank account not found", db)
      | some bankAccount =>
        let transactionData : List CreateTransactionData := confirmBatch req statement bankAccount
        let result := createTransactions db transactionData req.skipDuplicates
        if result.created.length > 0 then
          let balanceChange : Rat := signedBalanceChange result.created
          let upd := updateBankAccountBalance result.db statement.bankAccountId balanceChange
          (.success ⟨result.created, result.skipped, result.duplicates, statement.bankAccountId⟩,
           upd.2)
        else
          (.success ⟨result.created, result.skipped, result.duplicates, statement.bankAccountId⟩,
           result.db)

/-- Response of the confirm handler (the three reported counters). -/
inductive ConfirmRes where
  | ok (created skipped duplicates : Nat)
  | err (status : Nat) (msg : String)
deriving Repr, DecidableEq

/-- `confirmParsedTransactionsHandler`: the JSON projection of the outcome. -/
def confirmParsedTransactionsHandler (req : ConfirmReq) (db : DB) : ConfirmRes × DB :=
  match confirmParsedTransactions req db with
  | (.success s, db2) => (.ok s.created.length s.skipped s.duplicates, db2)
  | (.failure status msg, db2) => (.err status msg, db2)

/-! ## Concrete instances used by the closed theorems -/

/-- An empty database. -/
def dbEmpty : DB := {}

/-- Demo account: balance 5000, currency INR. -/
def demoAcct : BankAccount :=
  { accountId := "acc1", userId := "u1", currency := "INR", currentBalance := 5000 }

/-- Demo candidate: income 1000. -/
def demoCand1 : ParsedTx :=
  { date := 19783, amount := 1000, description := "Salary", txType := "income",
    tempId := "temp_1" }

/-- Demo candidate: expense 300. -/
def demoCand2 : ParsedTx :=
  { date := 19784, amount := 300, description := "Groceries", txType := "expense",
    tempId := "temp_2" }

/-- Demo parsed upload holding the two candidates. -/
def demoStmt : BankStatementRec :=
  { stmtId := "st1", userId := "u1", bankAccountId := "acc1", fileType := "csv",
    filePath := some "uploads/statements/st1.csv", parseStatus := "completed",
    transactionCount := 2, parsedTransactions := [demoCand1, demoCand2] }

/-- Demo database: one account, one completed upload, empty ledger. -/
def demoDb : DB :=
  { transactions := [], accounts := [demoAcct], statements := [demoStmt], nextTxId := 0 }

/-- Confirm request selecting everything with `skipDuplicates`. -/
def confirmAllReq : ConfirmReq :=
  { userId := "u1", statementId := "st1", skipDuplicates := true }

/-- The fingerprint shared by the C2 scenario. -/
def c2hash : String := generateDuplicateHash 19783 450 "coffee" "acc1"

/-- A soft-deleted ledger transaction carrying that fingerprint. -/
def c2tx : LedgerTx :=
  { txId := 7, userId := "u1", accountId := "acc1", accountType := "bank",
    txType := "expense", amount := 450, currency := "INR", description := "coffee",
    date := 19783, duplicateCheckHash := c2hash, status := "completed",
    deletedAt := some 19800 }

/-- Database whose only carrier of the fingerprint is soft-deleted. -/
def c2db : DB := { transactions := [c2tx], accounts := [demoAcct], statements := [] }

/-- The candidate whose fingerprint equals the deleted transaction's. -/
def c2cand : DupCheckInput :=
  { date := 19783, amount := 450, description := "coffee", accountId := "acc1" }

/-- Creation payload for the C3 scenario. -/
def c3data : CreateTransactionData :=
  { userId := "u1", accountId := "acc1", accountType := "bank", txType := "expense",
    amount := 450, currency := "INR", description := "Coffee", date := 19783 }

/-- Database already holding a non-deleted transaction with `c3data`'s
fingerprint (created by the bulk-import itself). -/
def c3db : DB := (createTransactions dbEmpty [c3data] false).db

/-- The success outcome of confirming the demo upload. -/
def c9s : ConfirmSuccess :=
  match (confirmParsedTransactions confirmAllReq demoDb).1 with
  | .success s => s
  | .failure _ _ => ⟨[], 0, 0, ""⟩

/-- Parse request whose file holds a single well-formed CSV data row. -/
def c10req : ParseReq :=
  { userId := "u1", statementId := "st1",
    fileContent := "01-03-2024,-450.00,Electricity Bill" }

/-! ## Helper lemmas about the embedded operations -/

theorem ct_statements (transactions : List CreateTransactionData) (db : DB) (sk : Bool) :
    (createTransactions db transactions sk).db.statements = db.statements := by
  induction transactions generalizing db with
  | nil => rfl
  | cons d rest ih =>
    unfold createTransactions
    dsimp only
    split
    · exact ih db
    · split
      · exact ih _
      · exact ih db

theorem ct_accounts (transactions : List CreateTransactionData) (db : DB) (sk : Bool) :
    (createTransactions db transactions sk).db.accounts = db.accounts := by
  induction transactions generalizing db with
  | nil => rfl
  | cons d rest ih =>
    unfold createTransactions
    dsimp only
    split
    · exact ih db
    · split
      · exact ih _
      · exact ih db

theorem ct_counts (transactions : List CreateTransactionData) (db : DB) (sk : Bool) :
    (createTransactions db transactions sk).created.length
      + (createTransactions db transactions sk).skipped
      + (createTransactions db transactions sk).duplicates
      = transactions.length := by
  induction transactions generalizing db with
  | nil => rfl
  | cons d rest ih =>
    unfold createTransactions
    dsimp only
    split
    · have := ih db
      dsimp only
      simp only [List.length_cons]
      omega
    · split
      · have := ih ({ db with
          transactions := db.transactions ++ [buildLedgerTx db d
            (generateDuplicateHash d.date d.amount d.description d.accountId)],
          nextTxId := db.nextTxId + 1 })
        dsimp only
        simp only [List.length_cons]
        omega
      · have := ih db
        dsimp only
        simp only [List.length_cons]
        omega

theorem ct_tx_prefix (transactions : List CreateTransactionData) (db : DB) (sk : Bool) :
    ∃ l, (createTransactions db transactions sk).db.transactions = db.transactions ++ l := by
  induction transactions generalizing db with
  | nil => exact ⟨[], by simp [createTransactions]⟩
  | cons d rest ih =>
    unfold createTransactions
    dsimp only
    split
    · exact ih db
    · split
      · obtain ⟨l, hl⟩ := ih ({ db with
          transactions := db.transactions ++ [buildLedgerTx db d
            (generateDuplicateHash d.date d.amount d.description d.accountId)],
          nextTxId := db.nextTxId + 1 })
        exact ⟨_ :: l, by simpa using hl⟩
      · exact ih db

theorem bl_userId (db : DB) (txd : CreateTransactionData) (h : String) :
    (buildLedgerTx db txd h).userId = txd.userId := rfl

theorem bl_hash (db : DB) (txd : CreateTransactionData) (h : String) :
    (buildLedgerTx db txd h).duplicateCheckHash = h := rfl

theorem bl_del (db : DB) (txd : CreateTransactionData) (h : String) :
    (buildLedgerTx db txd h).deletedAt = none := rfl

theorem ct_success_mem (transactions : List CreateTransactionData) (db : DB) (sk : Bool)
    (h0 : (createTransactions db transactions sk).skipped = 0)
    (h1 : (createTransactions db transactions sk).duplicates = 0) :
    ∀ d ∈ transactions, ∃ t ∈ (createTransactions db transactions sk).db.transactions,
      t.userId = d.userId ∧
      t.duplicateCheckHash = generateDuplicateHash d.date d.amount d.description d.accountId ∧
      t.deletedAt = none := by
  induction transactions generalizing db with
  | nil => intro d hd; cases hd
  | cons c rest ih =>
    intro d hd
    revert h0 h1
    unfold createTransactions
    dsimp only
    split
    · intro h0 h1
      exact absurd h1 (by dsimp only; omega)
    · split
      · intro h0 h1
        dsimp only at h0 h1 ⊢
        rcases List.mem_cons.mp hd with rfl | hdrest
        · obtain ⟨l, hl⟩ := ct_tx_prefix rest ({ db with
            transactions := db.transactions ++ [buildLedgerTx db d
              (generateDuplicateHash d.date d.amount d.description d.accountId)],
            nextTxId := db.nextTxId + 1 }) sk
          refine ⟨buildLedgerTx db d
            (generateDuplicateHash d.date d.amount d.description d.accountId), ?_,
            bl_userId .., bl_hash .., bl_del ..⟩
          rw [hl]
          exact List.mem_append.mpr (Or.inl (List.mem_append.mpr
            (Or.inr (List.mem_singleton.mpr rfl))))
        · exact ih _ h0 h1 d hdrest
      · intro h0 h1
        exact absurd h0 (by dsimp only; omega)

theorem ct_alldup (transactions : List CreateTransactionData) (db : DB)
    (h : ∀ d ∈ transactions, ∃ t ∈ db.transactions,
      t.userId = d.userId ∧
      t.duplicateCheckHash = generateDuplicateHash d.date d.amount d.description d.accountId ∧
      t.deletedAt = none) :
    createTransactions db transactions true = ⟨[], 0, transactions.length, db⟩ := by
  induction transactions with
  | nil => rfl
  | cons c rest ih =>
    unfold createTransactions
    dsimp only
    split
    · rw [ih (fun d hd => h d (List.mem_cons_of_mem _ hd))]
      simp
    · next hdup =>
      exfalso
      apply hdup
      obtain ⟨t, ht, hu, hh, hdel⟩ := h c (List.mem_cons_self _ _)
      simp only [Bool.true_and, List.find?_isSome]
      exact ⟨t, ht, by simp [hu, hh, hdel, Option.isNone_iff_eq_none]⟩

theorem upd_statements (db : DB) (aid : String) (amount : Rat) :
    (updateBankAccountBalance db aid amount).2.statements = db.statements := by
  unfold updateBankAccountBalance
  split <;> rfl

theorem upd_transactions (db : DB) (aid : String) (amount : Rat) :
    (updateBankAccountBalance db aid amount).2.transactions = db.transactions := by
  unfold updateBankAccountBalance
  split <;> rfl

theorem bump_find_user (l : List BankAccount) (aid x u : String) (amount : Rat) :
    ((bumpFirstAccount l aid amount).find? (fun a => a.accountId == x && a.userId == u)).map
        (fun a => a.currency)
      = (l.find? (fun a => a.accountId == x && a.userId == u)).map (fun a => a.currency) := by
  induction l with
  | nil => rfl
  | cons a rest ih =>
    unfold bumpFirstAccount
    split
    · simp only [List.find?]
      cases hp : (a.accountId == x && a.userId == u) <;> simp [hp]
    · simp only [List.find?]
      cases hp : (a.accountId == x && a.userId == u) <;> simp [hp, ih]

theorem bump_find_id (l : List BankAccount) (aid : String) (amount : Rat) (a : BankAccount)
    (h : l.find? (fun x => x.accountId == aid) = some a) :
    (bumpFirstAccount l aid amount).find? (fun x => x.accountId == aid)
      = some { a with currentBalance := a.currentBalance + amount } := by
  induction l with
  | nil => cases h
  | cons b rest ih =>
    unfold bumpFirstAccount
    split
    · next hb =>
      simp only [List.find?, hb] at h ⊢
      cases h
      simp [hb]
    · next hb =>
      have hb' : (b.accountId == aid) = false := by
        cases hx : (b.accountId == aid)
        · rfl
        · exact absurd hx hb
      simp only [List.find?, hb'] at h ⊢
      exact ih h

theorem find_byId_isSome (l : List BankAccount) (x u : String) (a : BankAccount)
    (h : l.find? (fun b => b.accountId == x && b.userId == u) = some a) :
    ∃ c, l.find? (fun b => b.accountId == x) = some c := by
  have hmem := List.mem_of_find?_eq_some h
  have hp := List.find?_some h
  have : (l.find? (fun b => b.accountId == x)).isSome := by
    rw [List.find?_isSome]
    exact ⟨a, hmem, by simp_all⟩
  exact Option.isSome_iff_exists.mp this

theorem find_save_stmt (l : List BankStatementRec) (s' stmt : BankStatementRec) (i u : String)
    (h : l.find? (fun s => s.stmtId == i && s.userId == u) = some stmt)
    (hid : s'.stmtId = stmt.stmtId) (hu : s'.userId = stmt.userId) :
    (l.map (fun s => if s.stmtId == s'.stmtId then s' else s)).find?
        (fun s => s.stmtId == i && s.userId == u) = some s' := by
  have hpred := List.find?_some h
  have hsi : stmt.stmtId = i := by
    have := (Bool.and_eq_true _ _).mp hpred
    exact beq_iff_eq.mp this.1
  have hsu : stmt.userId = u := by
    have := (Bool.and_eq_true _ _).mp hpred
    exact beq_iff_eq.mp this.2
  induction l with
  | nil => cases h
  | cons b rest ih =>
    simp only [List.map]
    by_cases hb : (b.stmtId == i && b.userId == u) = true
    · simp only [List.find?, hb] at h
      cases h
      have hrep : (stmt.stmtId == s'.stmtId) = true := by simp [hid]
      rw [if_pos hrep]
      simp only [List.find?]
      have hok : (s'.stmtId == i && s'.userId == u) = true := by
        simp [hid, hu, hsi, hsu]
      simp [hok]
    · have hb' : (b.stmtId == i && b.userId == u) = false := by
        cases hx : (b.stmtId == i && b.userId == u)
        · rfl
        · exact absurd hx hb
      simp only [List.find?, hb'] at h
      by_cases hrep : (b.stmtId == s'.stmtId) = true
      · rw [if_pos hrep]
        simp only [List.find?]
        have : (s'.stmtId == i && s'.userId == u) = true := by
          simp [hid, hu, hsi, hsu]
        simp [this]
      · rw [if_neg hrep]
        simp only [List.find?, hb']
        exact ih h

theorem str_beq_false {a b : String} (h : a ≠ b) : (a == b) = false := by
  cases hx : (a == b)
  · rfl
  · exact absurd (beq_iff_eq.mp hx) h

theorem mapGet_mapSet_self {α : Type} (m : List (String × α)) (k : String) (v : α) :
    mapGet (mapSet m k v) k = some v := by
  unfold mapSet
  split
  · next hany =>
    induction m with
    | nil => cases hany
    | cons p rest ih =>
      simp only [List.any_cons, Bool.or_eq_true] at hany
      simp only [List.map]
      by_cases hpk : (p.1 == k) = true
      · rw [if_pos hpk]
        unfold mapGet
        simp [List.find?]
      · rw [if_neg hpk]
        unfold mapGet
        simp only [List.find?]
        have hpk' : (p.1 == k) = false := by
          cases hx : (p.1 == k)
          · rfl
          · exact absurd hx hpk
        rw [hpk']
        rcases hany with h | h
        · exact absurd h hpk
        · exact ih h
  · induction m with
    | nil =>
      unfold mapGet
      simp [List.find?]
    | cons p rest ih =>
      next hany =>
      simp only [List.any_cons, Bool.or_eq_true, not_or] at hany
      have hpk : (p.1 == k) = false := by
        cases hx : (p.1 == k)
        · rfl
        · exact absurd hx hany.1
      unfold mapGet at ih ⊢
      simp only [List.cons_append, List.find?, hpk]
      exact ih (by simpa using hany.2)

theorem find_key_map_set {α : Type} (m : List (String × α)) (k j : String) (v : α)
    (hne : j ≠ k) :
    (m.map (fun p => if p.1 == k then (k, v) else p)).find? (fun p => p.1 == j)
      = m.find? (fun p => p.1 == j) := by
  have hkj : (k == j) = false := str_beq_false (fun h => hne h.symm)
  induction m with
  | nil => rfl
  | cons p rest ih =>
    simp only [List.map]
    by_cases hpk : (p.1 == k) = true
    · rw [if_pos hpk]
      have hpj : (p.1 == j) = false := by
        rw [beq_iff_eq.mp hpk]
        exact hkj
      simp only [List.find?, hkj, hpj]
      exact ih
    · rw [if_neg hpk]
      simp only [List.find?]
      cases hx : (p.1 == j)
      · exact ih
      · rfl

theorem find_key_append_one {α : Type} (m : List (String × α)) (k j : String) (v : α)
    (hne : j ≠ k) :
    (m ++ [(k, v)]).find? (fun p => p.1 == j) = m.find? (fun p => p.1 == j) := by
  have hkj : (k == j) = false := str_beq_false (fun h => hne h.symm)
  induction m with
  | nil => simp [List.find?, hkj]
  | cons p rest ih =>
    simp only [List.cons_append, List.find?]
    cases hx : (p.1 == j)
    · exact ih
    · rfl

theorem mapGet_mapSet_other {α : Type} (m : List (String × α)) (k j : String) (v : α)
    (hne : j ≠ k) :
    mapGet (mapSet m k v) j = mapGet m j := by
  unfold mapSet mapGet
  split
  · rw [find_key_map_set m k j v hne]
  · rw [find_key_append_one m k j v hne]

theorem fold_mapSet_get {α β : Type} (hf : β → String) (ff : String → α)
    (cands : List β) (k : String) :
    ∀ m : List (String × α),
    mapGet (cands.foldl (fun m tx => mapSet m (hf tx) (ff (hf tx))) m) k
      = if cands.any (fun c => hf c == k) then some (ff k) else mapGet m k := by
  induction cands with
  | nil =>
    intro m
    simp only [List.foldl, List.any_nil, Bool.false_eq_true, if_false]
  | cons c rest ih =>
    intro m
    simp only [List.foldl, List.any_cons]
    rw [ih]
    by_cases hrest : rest.any (fun c => hf c == k) = true
    · simp [hrest]
    · have hrest' : rest.any (fun c => hf c == k) = false := by
        cases hx : rest.any (fun c => hf c == k)
        · rfl
        · exact absurd hx hrest
      by_cases hck : (hf c == k) = true
      · have hk : hf c = k := beq_iff_eq.mp hck
        simp only [hrest', hck, Bool.true_or, if_true, Bool.false_eq_true, if_false]
        rw [← hk]
        exact mapGet_mapSet_self m _ _
      · have hck' : (hf c == k) = false := by
          cases hx : (hf c == k)
          · rfl
          · exact absurd hx hck
        simp only [hrest', hck', Bool.or_false, Bool.false_eq_true, if_false]
        exact mapGet_mapSet_other m _ _ _ (fun h => hck (by simp [h]))

theorem checkDuplicates_get (db : DB) (uid k : String) (cands : List DupCheckInput) :
    mapGet (checkDuplicates db uid cands) k
      = if cands.any (fun c =>
            generateDuplicateHash c.date c.amount c.description c.accountId == k) then
          some (db.transactions.find? (fun t => t.userId == uid && t.duplicateCheckHash == k))
        else none := by
  have h := fold_mapSet_get
    (fun tx : DupCheckInput => generateDuplicateHash tx.date tx.amount tx.description tx.accountId)
    (fun hash => db.transactions.find? (fun t => t.userId == uid && t.duplicateCheckHash == hash))
    cands k []
  exact h

theorem confirm_success_inv (req : ConfirmReq) (db : DB) (s : ConfirmSuccess)
    (h : (confirmParsedTransactions req db).1 = .success s) :
    ∃ stmt acct, findStatement db req.statementId req.userId = some stmt ∧
      stmt.parseStatus = "completed" ∧
      getBankAccountById db stmt.bankAccountId req.userId = some acct := by
  unfold confirmParsedTransactions at h
  split at h
  · cases h
  · next stmt hfind =>
    split at h
    · cases h
    · next hstatus =>
      split at h
      · cases h
      · next acct hacct =>
        exact ⟨stmt, acct, hfind, by simpa using hstatus, hacct⟩

theorem confirm_unfold (req : ConfirmReq) (db : DB) (stmt : BankStatementRec)
    (acct : BankAccount)
    (hfind : findStatement db req.statementId req.userId = some stmt)
    (hstatus : stmt.parseStatus = "completed")
    (hacct : getBankAccountById db stmt.bankAccountId req.userId = some acct) :
    confirmParsedTransactions req db =
      (if (createTransactions db (confirmBatch req stmt acct) req.skipDuplicates).created.length
          > 0 then
        (.success ⟨(createTransactions db (confirmBatch req stmt acct) req.skipDuplicates).created,
            (createTransactions db (confirmBatch req stmt acct) req.skipDuplicates).skipped,
            (createTransactions db (confirmBatch req stmt acct) req.skipDuplicates).duplicates,
            stmt.bankAccountId⟩,
         (updateBankAccountBalance
            (createTransactions db (confirmBatch req stmt acct) req.skipDuplicates).db
            stmt.bankAccountId
            (signedBalanceChange
              (createTransactions db (confirmBatch req stmt acct) req.skipDuplicates).created)).2)
      else
        (.success ⟨(createTransactions db (confirmBatch req stmt acct) req.skipDuplicates).created,
            (createTransactions db (confirmBatch req stmt acct) req.skipDuplicates).skipped,
            (createTransactions db (confirmBatch req stmt acct) req.skipDuplicates).duplicates,
            stmt.bankAccountId⟩,
         (createTransactions db (confirmBatch req stmt acct) req.skipDuplicates).db)) := by
  unfold confirmParsedTransactions
  rw [hfind]
  have : (stmt.parseStatus ≠ "completed") = False := by simp [hstatus]
  simp only [hstatus, ne_eq, hacct]
  simp

theorem confirm_failure_state (req : ConfirmReq) (db : DB) (st : Nat) (m : String)
    (h : (confirmParsedTransactions req db).1 = .failure st m) :
    (confirmParsedTransactions req db).2 = db := by
  unfold confirmParsedTransactions at h ⊢
  split at h
  · rfl
  · split at h
    · next hst => rw [if_pos hst]
    · next hst =>
      rw [if_neg hst]
      split at h
      · rfl
      · dsimp only at h
        split at h
        · cases h
        · cases h

/-! ## Claim theorems -/

/-- C9: after every confirm call the linked account's balance changes by
exactly the signed sum over the created transactions (income adds, expense
subtracts, transfer is neutral), applied as a single delta; a confirm call
that creates nothing (including every failing call) leaves the state
unchanged. -/
theorem c9_balance_delta (req : ConfirmReq) (db : DB) :
    (∀ s, (confirmParsedTransactions req db).1 = ConfirmOutcome.success s →
      ∃ a a2, db.accounts.find? (fun x => x.accountId == s.accountId) = some a ∧
        (confirmParsedTransactions req db).2.accounts.find?
            (fun x => x.accountId == s.accountId) = some a2 ∧
        a2.currentBalance = a.currentBalance + signedBalanceChange s.created) ∧
    (∀ st m, (confirmParsedTransactions req db).1 = ConfirmOutcome.failure st m →
      (confirmParsedTransactions req db).2 = db) := by
  refine ⟨?_, ?_⟩
  · intro s hs
    obtain ⟨stmt, acct, hfind, hstatus, hacct⟩ := confirm_success_inv req db s hs
    have hU := confirm_unfold req db stmt acct hfind hstatus hacct
    rw [hU] at hs ⊢
    by_cases hlen :
      (createTransactions db (confirmBatch req stmt acct) req.skipDuplicates).created.length > 0
    · rw [if_pos hlen] at hs ⊢
      dsimp only at hs ⊢
      injection hs with hsv
      subst hsv
      dsimp only
      unfold getBankAccountById at hacct
      obtain ⟨a, ha⟩ := find_byId_isSome db.accounts stmt.bankAccountId req.userId acct hacct
      set dlt := signedBalanceChange
        (createTransactions db (confirmBatch req stmt acct) req.skipDuplicates).created with hdlt
      have hb := bump_find_id db.accounts stmt.bankAccountId dlt a ha
      refine ⟨a, { a with currentBalance := a.currentBalance + dlt }, ha, ?_, rfl⟩
      unfold updateBankAccountBalance
      rw [ct_accounts]
      rw [ha]
      dsimp only
      exact hb
    · rw [if_neg hlen] at hs ⊢
      dsimp only at hs ⊢
      injection hs with hsv
      subst hsv
      dsimp only
      have hnil :
          (createTransactions db (confirmBatch req stmt acct) req.skipDuplicates).created
            = [] := by
        have := Nat.eq_zero_of_not_pos hlen
        exact List.length_eq_zero.mp this
      unfold getBankAccountById at hacct
      obtain ⟨a, ha⟩ := find_byId_isSome db.accounts stmt.bankAccountId req.userId acct hacct
      refine ⟨a, a, ha, ?_, ?_⟩
      · rw [ct_accounts]
        exact ha
      · rw [hnil]
        simp [signedBalanceChange]
  · intro st m h
    exact confirm_failure_state req db st m h

theorem upd_find_user_currency (db : DB) (aid x u : String) (amount : Rat) :
    (((updateBankAccountBalance db aid amount).2.accounts.find?
        (fun a => a.accountId == x && a.userId == u)).map (fun a => a.currency))
      = ((db.accounts.find? (fun a => a.accountId == x && a.userId == u)).map
          (fun a => a.currency)) := by
  unfold updateBankAccountBalance
  split
  · rfl
  · dsimp only
    exact bump_find_user db.accounts aid x u amount

/-- C1: with `skipDuplicates` set, confirming the same upload twice with the
same candidate selection is idempotent: if the first call created its whole
selected batch (N created, none skipped, none counted duplicate), an
identical second call creates nothing, changes no state, and reports
`created = 0`, `duplicates = N`. -/
theorem c1_confirm_idempotent (req : ConfirmReq) (db : DB) (N : Nat)
    (hskip : req.skipDuplicates = true)
    (h1 : (confirmParsedTransactionsHandler req db).1 = ConfirmRes.ok N 0 0) :
    confirmParsedTransactionsHandler req (confirmParsedTransactionsHandler req db).2
      = (ConfirmRes.ok 0 0 N, (confirmParsedTransactionsHandler req db).2) := by
  unfold confirmParsedTransactionsHandler at h1 ⊢
  rcases hc : confirmParsedTransactions req db with ⟨out, db1⟩
  rw [hc] at h1
  cases out with
  | failure st m => cases h1
  | success s =>
    dsimp only at h1 ⊢
    injection h1 with hN hskipped hdups
    obtain ⟨stmt, acct, hfind, hstatus, hacct⟩ := confirm_success_inv req db s
      (by rw [hc])
    have hU := confirm_unfold req db stmt acct hfind hstatus hacct
    rw [hskip] at hU
    rw [hU] at hc
    have hcounts := ct_counts (confirmBatch req stmt acct) db true
    have hmem := ct_success_mem (confirmBatch req stmt acct) db true
    by_cases hlen :
        (createTransactions db (confirmBatch req stmt acct) true).created.length > 0
    · rw [if_pos hlen] at hc
      have hcs := congrArg Prod.fst hc
      have hcdb := congrArg Prod.snd hc
      dsimp only at hcs hcdb
      injection hcs with hsv
      subst hsv
      dsimp only at hN hskipped hdups
      subst hcdb
      -- facts about db1
      have hst1 : (updateBankAccountBalance
          (createTransactions db (confirmBatch req stmt acct) true).db
          stmt.bankAccountId
          (signedBalanceChange
            (createTransactions db (confirmBatch req stmt acct) true).created)).2.statements
          = db.statements := by
        rw [upd_statements]
        exact ct_statements _ _ _
      have htx1 : (updateBankAccountBalance
          (createTransactions db (confirmBatch req stmt acct) true).db
          stmt.bankAccountId
          (signedBalanceChange
            (createTransactions db (confirmBatch req stmt acct) true).created)).2.transactions
          = (createTransactions db (confirmBatch req stmt acct) true).db.transactions := by
        rw [upd_transactions]
      have hfind1 : findStatement (updateBankAccountBalance
          (createTransactions db (confirmBatch req stmt acct) true).db
          stmt.bankAccountId
          (signedBalanceChange
            (createTransactions db (confirmBatch req stmt acct) true).created)).2
          req.statementId req.userId = some stmt := by
        unfold findStatement at hfind ⊢
        rw [hst1]
        exact hfind
      have hcur0 : ((updateBankAccountBalance
          (createTransactions db (confirmBatch req stmt acct) true).db
          stmt.bankAccountId
          (signedBalanceChange
            (createTransactions db (confirmBatch req stmt acct) true).created)).2.accounts.find?
            (fun a => a.accountId == stmt.bankAccountId && a.userId == req.userId)).map
            (fun a => a.currency)
          = some acct.currency := by
        rw [upd_find_user_currency]
        rw [ct_accounts]
        unfold getBankAccountById at hacct
        rw [hacct]
        rfl
      obtain ⟨acct2, hacct1, hcur⟩ := Option.map_eq_some'.mp hcur0
      have hacct1' : getBankAccountById (updateBankAccountBalance
          (createTransactions db (confirmBatch req stmt acct) true).db
          stmt.bankAccountId
          (signedBalanceChange
            (createTransactions db (confirmBatch req stmt acct) true).created)).2
          stmt.bankAccountId req.userId = some acct2 := hacct1
      have hbatch2 : confirmBatch req stmt acct2 = confirmBatch req stmt acct := by
        unfold confirmBatch
        rw [hcur]
      have hall : ∀ d ∈ confirmBatch req stmt acct,
          ∃ t ∈ (updateBankAccountBalance
            (createTransactions db (confirmBatch req stmt acct) true).db
            stmt.bankAccountId
            (signedBalanceChange
              (createTransactions db (confirmBatch req stmt acct) true).created)).2.transactions,
            t.userId = d.userId ∧
            t.duplicateCheckHash
              = generateDuplicateHash d.date d.amount d.description d.accountId ∧
            t.deletedAt = none := by
        rw [htx1]
        exact hmem hskipped hdups
      have hsecond := ct_alldup (confirmBatch req stmt acct) _ hall
      have hU1 := confirm_unfold req _ stmt acct2 hfind1 hstatus hacct1'
      rw [hskip, hbatch2, hsecond] at hU1
      have hlenN : (confirmBatch req stmt acct).length = N := by
        omega
      rw [hU1, hlenN]
      rfl
    · rw [if_neg hlen] at hc
      have hcs := congrArg Prod.fst hc
      have hcdb := congrArg Prod.snd hc
      dsimp only at hcs hcdb
      injection hcs with hsv
      subst hsv
      dsimp only at hN hskipped hdups
      subst hcdb
      have hfind1 : findStatement
          (createTransactions db (confirmBatch req stmt acct) true).db
          req.statementId req.userId = some stmt := by
        unfold findStatement at hfind ⊢
        rw [ct_statements]
        exact hfind
      have hcur0 : (((createTransactions db (confirmBatch req stmt acct) true).db.accounts.find?
            (fun a => a.accountId == stmt.bankAccountId && a.userId == req.userId)).map
            (fun a => a.currency))
          = some acct.currency := by
        rw [ct_accounts]
        unfold getBankAccountById at hacct
        rw [hacct]
        rfl
      obtain ⟨acct2, hacct1, hcur⟩ := Option.map_eq_some'.mp hcur0
      have hacct1' : getBankAccountById
          (createTransactions db (confirmBatch req stmt acct) true).db
          stmt.bankAccountId req.userId = some acct2 := hacct1
      have hbatch2 : confirmBatch req stmt acct2 = confirmBatch req stmt acct := by
        unfold confirmBatch
        rw [hcur]
      have hall : ∀ d ∈ confirmBatch req stmt acct,
          ∃ t ∈ (createTransactions db (confirmBatch req stmt acct) true).db.transactions,
            t.userId = d.userId ∧
            t.duplicateCheckHash
              = generateDuplicateHash d.date d.amount d.description d.accountId ∧
            t.deletedAt = none := hmem hskipped hdups
      have hsecond := ct_alldup (confirmBatch req stmt acct) _ hall
      have hU1 := confirm_unfold req _ stmt acct2 hfind1 hstatus hacct1'
      rw [hskip, hbatch2, hsecond] at hU1
      have hlenN : (confirmBatch req stmt acct).length = N := by
        omega
      rw [hU1, hlenN]
      rfl

/-- C4: the fingerprint is invariant under leading/trailing whitespace and
letter case of the description: equal normalized descriptions give equal
fingerprints for the same date, amount and account. -/
theorem c4_fingerprint_normalization (d : Int) (a : Rat) (acct s1 s2 : String)
    (h : jsToLower (jsTrim s1) = jsToLower (jsTrim s2)) :
    generateDuplicateHash d a s1 acct = generateDuplicateHash d a s2 acct := by
  unfold generateDuplicateHash
  rw [h]

/-- Witness for C4 at the spec's own example. -/
theorem c4_fingerprint_normalization_witness :
    jsToLower (jsTrim "  Coffee Shop  ") = jsToLower (jsTrim "coffee shop") ∧
    generateDuplicateHash 19783 450 "  Coffee Shop  " "acct1"
      = generateDuplicateHash 19783 450 "coffee shop" "acct1" :=
  ⟨rfl, c4_fingerprint_normalization 19783 450 "acct1" "  Coffee Shop  " "coffee shop" rfl⟩

/-- C5 (code bug): the Date Normalizer does not return 2024-03-01 for the
token "2024-03-01".  The first (D-M-Y) pattern matches the substring
"24-03-01", the `> 31` year guard then picks the D-M-Y reading, and the
result is the calendar date 2001-03-24. -/
theorem c5_ymd_token_misparsed :
    parseDate "2024-03-01" = some (daysFromCivil 2001 3 24) ∧
    daysFromCivil 2001 3 24 ≠ daysFromCivil 2024 3 1 := by
  exact ⟨rfl, by decide⟩


/-- C2, counterexample to the claim as stated: every ledger transaction
carrying the fingerprint is soft-deleted, yet `checkDuplicates` reports a
match for it (its query has no `deletedAt` filter). -/
theorem c2_counterexample :
    (∀ t ∈ c2db.transactions, t.duplicateCheckHash = c2hash → t.deletedAt ≠ none) ∧
    mapGet (checkDuplicates c2db "u1" [c2cand]) c2hash = some (some c2tx) := by
  constructor
  · intro t ht _
    have hteq : t = c2tx := by simpa [c2db] using ht
    subst hteq
    simp [c2tx]
  · decide

/-- C2, amended: `checkDuplicates` reports a match for a candidate exactly
when any ledger transaction of the owner — deleted or not — carries its
fingerprint; the lookup only reads the state. -/
theorem c2_checkDuplicates_ignores_deleted (db : DB) (uid : String)
    (cands : List DupCheckInput) (c : DupCheckInput) (hc : c ∈ cands) :
    ∃ v, mapGet (checkDuplicates db uid cands)
        (generateDuplicateHash c.date c.amount c.description c.accountId) = some v ∧
      (v.isSome = true ↔ ∃ t ∈ db.transactions, t.userId = uid ∧
        t.duplicateCheckHash
          = generateDuplicateHash c.date c.amount c.description c.accountId) := by
  rw [checkDuplicates_get]
  have hany : cands.any (fun x =>
      generateDuplicateHash x.date x.amount x.description x.accountId
        == generateDuplicateHash c.date c.amount c.description c.accountId) = true :=
    List.any_eq_true.mpr ⟨c, hc, by simp⟩
  rw [hany]
  refine ⟨_, if_pos rfl, ?_⟩
  simp only [List.find?_isSome, Bool.and_eq_true, beq_iff_eq]

/-- Witness for the amended C2 at the concrete soft-deleted instance. -/
theorem c2_checkDuplicates_ignores_deleted_witness :
    ∃ v, mapGet (checkDuplicates c2db "u1" [c2cand])
        (generateDuplicateHash c2cand.date c2cand.amount c2cand.description c2cand.accountId)
          = some v ∧
      (v.isSome = true ↔ ∃ t ∈ c2db.transactions, t.userId = "u1" ∧
        t.duplicateCheckHash = generateDuplicateHash c2cand.date c2cand.amount
          c2cand.description c2cand.accountId) :=
  c2_checkDuplicates_ignores_deleted c2db "u1" [c2cand] c2cand (List.mem_singleton.mpr rfl)

/-- C3, amended: the bulk-import re-derives the fingerprint for every row,
but looks the fingerprint up (and counts the row as a duplicate instead of
inserting) only when `skipDuplicates` is set; with `skipDuplicates = false`
a valid row is appended even when a non-deleted transaction with the same
fingerprint already exists. -/
theorem c3_duplicate_check_only_when_skipping (db : DB) (txd : CreateTransactionData) :
    ((∃ t ∈ db.transactions, t.userId = txd.userId ∧
        t.duplicateCheckHash
          = generateDuplicateHash txd.date txd.amount txd.description txd.accountId ∧
        t.deletedAt = none) →
      createTransactions db [txd] true = ⟨[], 0, 1, db⟩) ∧
    (txValid (buildLedgerTx db txd
        (generateDuplicateHash txd.date txd.amount txd.description txd.accountId)) = true →
      (createTransactions db [txd] false).created
          = [buildLedgerTx db txd
              (generateDuplicateHash txd.date txd.amount txd.description txd.accountId)] ∧
        (createTransactions db [txd] false).db.transactions
          = db.transactions ++ [buildLedgerTx db txd
              (generateDuplicateHash txd.date txd.amount txd.description txd.accountId)]) := by
  constructor
  · intro h
    refine ct_alldup [txd] db ?_
    intro d hd
    rw [List.mem_singleton] at hd
    subst hd
    exact h
  · intro hv
    unfold createTransactions
    dsimp only
    simp only [Bool.false_and, Bool.false_eq_true, if_false]
    rw [if_pos hv]
    exact ⟨rfl, rfl⟩

/-- Witness for the amended C3: both halves at the concrete instance. -/
theorem c3_duplicate_check_only_when_skipping_witness :
    createTransactions c3db [c3data] true = ⟨[], 0, 1, c3db⟩ ∧
    (createTransactions c3db [c3data] false).created
        = [buildLedgerTx c3db c3data
            (generateDuplicateHash c3data.date c3data.amount c3data.description
              c3data.accountId)] :=
  ⟨(c3_duplicate_check_only_when_skipping c3db c3data).1
      ⟨buildLedgerTx dbEmpty c3data
          (generateDuplicateHash c3data.date c3data.amount c3data.description c3data.accountId),
        by decide, rfl, rfl, rfl⟩,
    ((c3_duplicate_check_only_when_skipping c3db c3data).2 (by decide)).1⟩

/-- C3, counterexample to the claim as stated: with `skipDuplicates = false`
the row whose fingerprint already exists (non-deleted) is inserted a second
time — afterwards two ledger transactions carry the same fingerprint. -/
theorem c3_counterexample :
    (∃ t ∈ c3db.transactions, t.userId = c3data.userId ∧
      t.duplicateCheckHash
        = generateDuplicateHash c3data.date c3data.amount c3data.description c3data.accountId ∧
      t.deletedAt = none) ∧
    (createTransactions c3db [c3data] false).created.length = 1 ∧
    ((createTransactions c3db [c3data] false).db.transactions.countP
      (fun t => t.duplicateCheckHash
        == generateDuplicateHash c3data.date c3data.amount c3data.description
            c3data.accountId)) = 2 := by
  refine ⟨⟨buildLedgerTx dbEmpty c3data
      (generateDuplicateHash c3data.date c3data.amount c3data.description c3data.accountId),
      by decide, rfl, rfl, rfl⟩, by decide, by decide⟩

/-- C6: a tabular row with no type column whose amount field parses to a
negative number yields a candidate carrying the absolute value and the
expense direction. -/
theorem c6_negative_amount_expense
    (dateCol amountCol descriptionCol : Int) (i : Nat) (line : String)
    (ds as dsc : String) (d : Int) (a : Rat)
    (hlen : ¬ (parseCSVLine line).length < 3)
    (hds : (if 0 ≤ dateCol then (parseCSVLine line).get? dateCol.toNat
            else (parseCSVLine line).get? 0) = some ds)
    (hd : parseDate ds = some d)
    (has : (if 0 ≤ amountCol then (parseCSVLine line).get? amountCol.toNat
            else (parseCSVLine line).get? 1) = some as)
    (ha : jsParseFloat (cleanNumericString as) = some a)
    (hneg : a < 0)
    (hdsc : (if 0 ≤ descriptionCol then (parseCSVLine line).get? descriptionCol.toNat
            else (parseCSVLine line).get? 2) = some dsc) :
    csvRowToCandidate dateCol amountCol descriptionCol (-1) (-1) i line
      = some { date := d, amount := -a, description := jsTrim dsc, txType := "expense",
               tempId := "temp_" ++ natToDec i } := by
  unfold csvRowToCandidate
  rw [if_neg hlen]
  simp only [hds, hd, has, ha, hdsc]
  have ha0 : ¬ (a = 0) := ne_of_lt hneg
  have hpos : ¬ (a > 0) := not_lt.mpr (le_of_lt hneg)
  simp [ha0, hpos, abs_of_neg hneg]

/-- Witness for C6 at the spec's own row `01-03-2024,-450.00,Electricity
Bill` with header columns 0/1/2 and no type column. -/
theorem c6_negative_amount_expense_witness :
    parseDate "01-03-2024" = some (jsNewDate 1 2 2024) ∧
    jsParseFloat (cleanNumericString "-450.00") = some (-450) ∧
    ((-450 : Rat) < 0 ∧ -(-450 : Rat) = 450) ∧
    csvRowToCandidate 0 1 2 (-1) (-1) 1 "01-03-2024,-450.00,Electricity Bill"
      = some { date := jsNewDate 1 2 2024, amount := -(-450 : Rat),
               description := jsTrim "Electricity Bill", txType := "expense",
               tempId := "temp_" ++ natToDec 1 } :=
  ⟨by decide, by decide, ⟨by decide, by decide⟩,
    c6_negative_amount_expense 0 1 2 1 "01-03-2024,-450.00,Electricity Bill"
      "01-03-2024" "-450.00" "Electricity Bill" (jsNewDate 1 2 2024) (-450)
      (by decide) (by decide) (by decide) (by decide) (by decide) (by decide) (by decide)⟩

/-- C8 (code bug): the trailing-date line shape matches pattern 3 with the
expected groups and its date token parses, yet the Free-Text Extractor emits
nothing for the line: `parseFloat("01-03-2024")` is not `NaN`, so the
handler treats the first group as the date, fails to parse "Coffee Shop" as
a date, and skips the line. -/
theorem c8_trailing_date_line_dropped :
    jsMatch "Coffee Shop 450.00 01-03-2024" pdfPattern3
      = some { whole := "Coffee Shop 450.00 01-03-2024",
               groups := [(3, "01-03-2024"), (2, "450.00"), (1, "Coffee Shop")] } ∧
    (parseDate "01-03-2024").isSome = true ∧
    jsParseFloat "450.00" = some 450 ∧
    (jsParseFloat "01-03-2024").isSome = true ∧
    parsePDFStatement "Coffee Shop 450.00 01-03-2024" = [] :=
  ⟨rfl, by decide, by decide, by decide, by decide⟩

/-- C10: a tabular upload whose trimmed content has fewer than two lines is
rejected by the extractor (`CSV file is empty or invalid`) and the parse
handler marks the upload `failed` with that message, answering 500. -/
theorem c10_short_tabular_marks_failed (req : ParseReq) (db : DB)
    (stmt : BankStatementRec) (p : String)
    (hfind : findStatement db req.statementId req.userId = some stmt)
    (hpath : stmt.filePath = some p)
    (htype : stmt.fileType = "csv")
    (hvalid : stmt.parsedTransactions.all parsedTxValid = true)
    (hlines : (splitChar '\n' (jsTrim req.fileContent)).length < 2) :
    parseStatementHandler req db
      = (.err 500 "CSV file is empty or invalid",
         saveStatement (saveStatement db { stmt with parseStatus := "parsing" })
           { stmt with parseStatus := "failed", errorMessage := some "CSV file is empty or invalid" }) ∧
    findStatement (parseStatementHandler req db).2 req.statementId req.userId
      = some { stmt with parseStatus := "failed", errorMessage := some "CSV file is empty or invalid" } := by
  have hmain : parseStatementHandler req db
      = (.err 500 "CSV file is empty or invalid",
         saveStatement (saveStatement db { stmt with parseStatus := "parsing" })
           { stmt with parseStatus := "failed", errorMessage := some "CSV file is empty or invalid" }) := by
    unfold parseStatementHandler
    rw [hfind]
    dsimp only
    rw [hpath]
    dsimp only
    unfold trySaveStatement
    dsimp only
    rw [if_pos hvalid]
    dsimp only
    rw [htype]
    have hcp : (("csv" == "pdf") : Bool) = false := by decide
    rw [hcp]
    simp only [Bool.false_eq_true, if_false]
    unfold parseCSVStatement
    rw [if_pos hlines]
    dsimp only
    rw [if_pos hvalid]
  refine ⟨hmain, ?_⟩
  rw [hmain]
  dsimp only
  unfold findStatement at hfind ⊢
  unfold saveStatement
  dsimp only
  have h1 := find_save_stmt db.statements { stmt with parseStatus := "parsing" } stmt
    req.statementId req.userId hfind rfl rfl
  exact find_save_stmt _
    { stmt with parseStatus := "failed", errorMessage := some "CSV file is empty or invalid" }
    { stmt with parseStatus := "parsing" } req.statementId req.userId h1 rfl rfl

/-- Witness for C1 at the demo database: the first confirm call reports
`ok 2 0 0`, and the second identical call reports `ok 0 0 2` while leaving
the state of the first call untouched. -/
theorem c1_confirm_idempotent_witness :
    confirmAllReq.skipDuplicates = true ∧
    (confirmParsedTransactionsHandler confirmAllReq demoDb).1 = ConfirmRes.ok 2 0 0 ∧
    confirmParsedTransactionsHandler confirmAllReq
        (confirmParsedTransactionsHandler confirmAllReq demoDb).2
      = (ConfirmRes.ok 0 0 2, (confirmParsedTransactionsHandler confirmAllReq demoDb).2) :=
  ⟨rfl, by decide, c1_confirm_idempotent confirmAllReq demoDb 2 rfl (by decide)⟩

/-- Witness for C9 at the demo database: income 1000 and expense 300 against
balance 5000 leave balance 5700, matching the delta equation of the theorem
at the concrete success outcome `c9s`. -/
theorem c9_balance_delta_witness :
    (((confirmParsedTransactions confirmAllReq demoDb).2.accounts.find?
        (fun x => x.accountId == "acc1")).map (fun a => a.currentBalance) = some 5700) ∧
    (∃ a a2, demoDb.accounts.find? (fun x => x.accountId == c9s.accountId) = some a ∧
      (confirmParsedTransactions confirmAllReq demoDb).2.accounts.find?
          (fun x => x.accountId == c9s.accountId) = some a2 ∧
      a2.currentBalance = a.currentBalance + signedBalanceChange c9s.created) :=
  ⟨by decide, (c9_balance_delta confirmAllReq demoDb).1 c9s (by decide)⟩

/-- Witness for C10: the one-line upload `c10req` (a single well-formed data
row) drives the parse handler to a 500 answer and a `failed` upload carrying
the extractor's message. -/
theorem c10_short_tabular_marks_failed_witness :
    parseStatementHandler c10req demoDb
      = (.err 500 "CSV file is empty or invalid",
         saveStatement (saveStatement demoDb { demoStmt with parseStatus := "parsing" })
           { demoStmt with parseStatus := "failed", errorMessage := some "CSV file is empty or invalid" }) ∧
    findStatement (parseStatementHandler c10req demoDb).2 c10req.statementId c10req.userId
      = some { demoStmt with parseStatus := "failed", errorMessage := some "CSV file is empty or invalid" } :=
  c10_short_tabular_marks_failed c10req demoDb demoStmt "uploads/statements/st1.csv"
    (by decide) rfl rfl (by decide) (by decide)

theorem findIdx_storedEditMatch_none (l : List StoredParsedTx) (tid : String) :
    ∀ i, List.findIdx? (fun tx => storedEditMatch tx tid) l i = none := by
  induction l with
  | nil => intro i; rfl
  | cons a t ih =>
    intro i
    rw [List.findIdx?_cons]
    have hp : storedEditMatch a tid = false := rfl
    rw [hp]
    simp only [Bool.false_eq_true, if_false]
    exact ih (i + 1)

/-- C7 (code bug): a persisted candidate carries no identifier
(`ParsedTransactionSchema` has no `_tempId` path and disables `_id`), so the
edit handler's `findIndex` never matches any route parameter: every edit
call answers an error — 404 `Transaction not found` whenever the upload
exists and parsing completed — never returns an edited candidate, and leaves
the database (in particular the stored candidate list) unchanged.  The
claimed per-candidate validation rejection of a negative amount is
unreachable dead code. -/
theorem c7_stored_edit_unreachable :
    (∀ (cands : List ParsedTx) (tid : String),
        (cands.map castStored).findIdx? (fun tx => storedEditMatch tx tid) = none) ∧
    (∀ (req : EditReq) (db : DB),
        (editParsedTransactionHandlerStored req db).2 = db ∧
        ∀ t, (editParsedTransactionHandlerStored req db).1 ≠ EditRes.ok t) ∧
    (∀ (req : EditReq) (db : DB) (stmt : BankStatementRec),
        findStatement db req.statementId req.userId = some stmt →
        stmt.parseStatus = "completed" →
        editParsedTransactionHandlerStored req db
          = (.err 404 "Transaction not found", db)) := by
  refine ⟨fun cands tid => findIdx_storedEditMatch_none (cands.map castStored) tid 0, ?_, ?_⟩
  · intro req db
    unfold editParsedTransactionHandlerStored
    split
    · exact ⟨rfl, fun t h => nomatch h⟩
    · split
      · exact ⟨rfl, fun t h => nomatch h⟩
      · rw [findIdx_storedEditMatch_none]
        exact ⟨rfl, fun t h => nomatch h⟩
  · intro req db stmt hfind hstatus
    unfold editParsedTransactionHandlerStored
    rw [hfind]
    dsimp only
    rw [if_neg (fun h => h hstatus)]
    rw [findIdx_storedEditMatch_none]
